import Mathlib

/-!
# ipv666: configuration, start-up and the scan / generation stages

A shallow embedding of

* `common/config/configuration.go`  (directory layout of a `Configuration`),
* `main.go`                         (`initFilesystem`, `main`),
* `common/statemachine/addrgen.go`  (`generateCandidateAddresses`),
* `common/statemachine/blscan.go`   (`zmapScanNetworkRanges`, and the disabled
  legacy body kept in that file as a comment).

Go functions that touch the outside world (file system, sub-processes, the
metrics registry) are modelled by explicit state passing: every collaborator
that lives outside these four files is a field of an environment record, it
receives the current world `σ` and returns its Go results together with the
next world.  Every call to a collaborator is appended to a trace, so that
"is never invoked" and "is invoked exactly once" are statements about that
trace.  `log.Printf` lines and the duration timers do not influence control
flow or any value and are left out.
-/

namespace Ipv666

/-! ## common/config/configuration.go -/

/-- The `Configuration` struct.  The first ten fields are the ones declared in
`configuration.go`; the remaining ones are read by `main.go` and `addrgen.go`
and are declared in a part of the struct that is not in the files at hand. -/
structure Configuration where
  BaseOutputDirectory : String
  GeneratedModelDirectory : String
  PingResultDirectory : String
  NetworkGroupDirectory : String
  NetworkBlacklistDirectory : String
  CleanPingResultDirectory : String
  StateFileName : String
  GenerateAddressCount : Int
  NetworkGroupingSize : Int
  NetworkPingCount : Int
  GenerateFirstNybble : Nat
  GenerateUpdateFreq : Int
  GenWriteUpdateFreq : Int
  LogToFile : Bool
  LogFilePath : String
  LogFileMBSize : Int
  LogFileMaxBackups : Int
  LogFileMaxAge : Int
  CompressLogFiles : Bool
  MetricsToStdout : Bool
  MetricsStdoutFreq : Int
  deriving DecidableEq, Repr

/-- The zero value `Configuration{}`. -/
def Configuration.zero : Configuration :=
  { BaseOutputDirectory := "", GeneratedModelDirectory := "", PingResultDirectory := "",
    NetworkGroupDirectory := "", NetworkBlacklistDirectory := "",
    CleanPingResultDirectory := "", StateFileName := "", GenerateAddressCount := 0,
    NetworkGroupingSize := 0, NetworkPingCount := 0, GenerateFirstNybble := 0,
    GenerateUpdateFreq := 0, GenWriteUpdateFreq := 0, LogToFile := false, LogFilePath := "",
    LogFileMBSize := 0, LogFileMaxBackups := 0, LogFileMaxAge := 0, CompressLogFiles := false,
    MetricsToStdout := false, MetricsStdoutFreq := 0 }

/-- The type of `filepath.Join` restricted to two elements. -/
abbrev JoinFn := String → String → String

def Configuration.GetStateFilePath (Join : JoinFn) (config : Configuration) : String :=
  Join config.BaseOutputDirectory config.StateFileName

def Configuration.GetGeneratedModelDirPath (Join : JoinFn) (config : Configuration) : String :=
  Join config.BaseOutputDirectory config.GeneratedModelDirectory

def Configuration.GetPingResultDirPath (Join : JoinFn) (config : Configuration) : String :=
  Join config.BaseOutputDirectory config.PingResultDirectory

def Configuration.GetNetworkGroupDirPath (Join : JoinFn) (config : Configuration) : String :=
  Join config.BaseOutputDirectory config.NetworkGroupDirectory

def Configuration.GetNetworkBlacklistDirPath (Join : JoinFn) (config : Configuration) : String :=
  Join config.BaseOutputDirectory config.NetworkBlacklistDirectory

def Configuration.GetCleanPingDirPath (Join : JoinFn) (config : Configuration) : String :=
  Join config.BaseOutputDirectory config.CleanPingResultDirectory

def Configuration.GetAllDirectories (Join : JoinFn) (config : Configuration) : List String :=
  [ config.BaseOutputDirectory,
    config.GetGeneratedModelDirPath Join,
    config.GetPingResultDirPath Join,
    config.GetNetworkGroupDirPath Join,
    config.GetNetworkBlacklistDirPath Join,
    config.GetCleanPingDirPath Join ]

/-! ## main.go -/

/-- Calls that `main.go` makes to code outside `main.go`, in the order made. -/
inductive Event where
  | getConf (filePath : String)
  | logSetOutput (filename : String)
  | createDirectoryIfNotExist (dirPath : String)
  | stat (path : String)
  | initStateFile (path : String)
  | isZmapAvailable
  | metricsLog (freq : Int)
  | randSeed
  | runStateMachine
  deriving DecidableEq, Repr

/-- The collaborators of `main.go`.  `σ` is the state of the outside world and
`ε` the type of Go `error` values; an `Option ε` result is Go's `error`
(`none` is `nil`). -/
structure MainEnv (σ ε : Type) where
  /-- `filepath.Join` -/
  Join : JoinFn
  /-- `gonfig.GetConf(filePath, &config)`: fills the struct and returns an error -/
  GetConf : String → Configuration → σ → (Configuration × Option ε) × σ
  /-- `log.SetFlags(...)` and `log.SetOutput(&lumberjack.Logger{...})`, given the
  five fields of the logger -/
  SetOutput : String → Int → Int → Int → Bool → σ → σ
  /-- `fs.CreateDirectoryIfNotExist(dirPath)` -/
  CreateDirectoryIfNotExist : String → σ → Option ε × σ
  /-- `os.Stat(path)`, of which only the error is used -/
  Stat : String → σ → Option ε
  /-- `os.IsNotExist(err)` on a non-nil error (it is `false` on `nil`) -/
  IsNotExist : ε → Bool
  /-- `statemachine.InitStateFile(path)` -/
  InitStateFile : String → σ → Option ε × σ
  /-- `shell.IsZmapAvailable(&conf)` -/
  IsZmapAvailable : Configuration → σ → (Bool × Option ε) × σ
  /-- `go metrics.Log(metrics.DefaultRegistry, freq * time.Second, ...)`: starts the
  periodic metrics printer -/
  MetricsLog : Int → σ → σ
  /-- `rand.Seed(time.Now().UTC().UnixNano())` -/
  Seed : σ → σ
  /-- `statemachine.RunStateMachine(&conf)` -/
  RunStateMachine : Configuration → σ → Option ε × σ

/-- What a Go function returning `error` leaves behind. -/
structure Run (σ ε : Type) where
  err : Option ε
  world : σ
  trace : List Event

/-- `config.LoadFromFile`. -/
def LoadFromFile {σ ε : Type} (env : MainEnv σ ε) (filePath : String) (w : σ) :
    (Configuration × Option ε) × σ :=
  match env.GetConf filePath Configuration.zero w with
  | ((_, some err), w1) => ((Configuration.zero, some err), w1)
  | ((config, none), w1) => ((config, none), w1)

/-- The `for _, dirPath := range conf.GetAllDirectories()` loop of
`initFilesystem`: it stops at the first directory whose creation fails. -/
def createDirectories {σ ε : Type} (env : MainEnv σ ε) :
    List String → σ → List Event → Run σ ε
  | [], w, tr => { err := none, world := w, trace := tr }
  | dirPath :: rest, w, tr =>
    match env.CreateDirectoryIfNotExist dirPath w with
    | (some err, w1) =>
      { err := some err, world := w1, trace := tr ++ [Event.createDirectoryIfNotExist dirPath] }
    | (none, w1) =>
      createDirectories env rest w1 (tr ++ [Event.createDirectoryIfNotExist dirPath])

/-- The test `os.IsNotExist(err)` applied to the error of `os.Stat(path)`. -/
def statIsNotExist {σ ε : Type} (env : MainEnv σ ε) (path : String) (w : σ) : Bool :=
  match env.Stat path w with
  | some err => env.IsNotExist err
  | none => false

/-- `initFilesystem`. -/
def initFilesystem {σ ε : Type} (env : MainEnv σ ε) (conf : Configuration) (w : σ) : Run σ ε :=
  let dirs := createDirectories env (conf.GetAllDirectories env.Join) w []
  match dirs.err with
  | some err => { err := some err, world := dirs.world, trace := dirs.trace }
  | none =>
    let statePath := conf.GetStateFilePath env.Join
    let tr := dirs.trace ++ [Event.stat statePath]
    if statIsNotExist env statePath dirs.world then
      match env.InitStateFile statePath dirs.world with
      | (some err, w1) =>
        { err := some err, world := w1, trace := tr ++ [Event.initStateFile statePath] }
      | (none, w1) =>
        { err := none, world := w1, trace := tr ++ [Event.initStateFile statePath] }
    else
      { err := none, world := dirs.world, trace := tr }

/-- `setupLogging`: the world it leaves and the calls it made. -/
def setupLogging {σ ε : Type} (env : MainEnv σ ε) (conf : Configuration) (w : σ) :
    σ × List Event :=
  (env.SetOutput conf.LogFilePath conf.LogFileMBSize conf.LogFileMaxBackups conf.LogFileMaxAge
      conf.CompressLogFiles w,
    [Event.logSetOutput conf.LogFilePath])

/-- `initMetrics`: the world it leaves and the calls it made. -/
def initMetrics {σ ε : Type} (env : MainEnv σ ε) (conf : Configuration) (w : σ) :
    σ × List Event :=
  if conf.MetricsToStdout then
    (env.MetricsLog conf.MetricsStdoutFreq w, [Event.metricsLog conf.MetricsStdoutFreq])
  else (w, [])

/-- How the process started by `main` ends: `log.Fatal` prints and exits with
status 1, otherwise `main` returns. -/
inductive Outcome (ε : Type) where
  | fatal (message : String) (err : Option ε)
  | returned
  deriving DecidableEq, Repr

def Outcome.isFatal {ε : Type} : Outcome ε → Bool
  | Outcome.fatal _ _ => true
  | Outcome.returned => false

structure MainRun (σ ε : Type) where
  outcome : Outcome ε
  world : σ
  trace : List Event

/-- `main`.  `flag.StringVar` registers the flag with default `config.json`;
`flag.Parse` is never called, so `configPath` keeps that default. -/
def main {σ ε : Type} (env : MainEnv σ ε) (w : σ) : MainRun σ ε :=
  let configPath := "config.json"
  match LoadFromFile env configPath w with
  | ((_, some _), w1) =>
    { outcome := Outcome.fatal "Can't proceed without loading valid configuration file." none,
      world := w1, trace := [Event.getConf configPath] }
  | ((conf, none), w1) =>
    let logged : σ × List Event :=
      if conf.LogToFile then setupLogging env conf w1 else (w1, [])
    let fsRun := initFilesystem env conf logged.1
    let tr2 := [Event.getConf configPath] ++ logged.2 ++ fsRun.trace
    match fsRun.err with
    | some err =>
      { outcome := Outcome.fatal "Error thrown during initialization: " (some err),
        world := fsRun.world, trace := tr2 }
    | none =>
      match env.IsZmapAvailable conf fsRun.world with
      | ((_, some err), w3) =>
        { outcome := Outcome.fatal "Error thrown when checking for Zmap: " (some err),
          world := w3, trace := tr2 ++ [Event.isZmapAvailable] }
      | ((false, none), w3) =>
        { outcome := Outcome.fatal "Zmap not found. Please install Zmap." none,
          world := w3, trace := tr2 ++ [Event.isZmapAvailable] }
      | ((true, none), w3) =>
        let metered := initMetrics env conf w3
        let w4 := env.Seed metered.1
        let tr5 := tr2 ++ [Event.isZmapAvailable] ++ metered.2 ++
          [Event.randSeed, Event.runStateMachine]
        match env.RunStateMachine conf w4 with
        | (some err, w5) => { outcome := Outcome.fatal "" (some err), world := w5, trace := tr5 }
        | (none, w5) => { outcome := Outcome.returned, world := w5, trace := tr5 }

/-! ## addressing (the two types the stages exchange) -/

/-- `addressing.IPv6Address`: a struct whose only field is `Content [16]byte`.
Bytes are natural numbers; a well-formed address has 16 of them, all below 256. -/
structure IPv6Address where
  Content : List Nat
  deriving DecidableEq, Repr

/-- `addressing.IPv6AddressList`. -/
structure IPv6AddressList where
  Addresses : List IPv6Address
  deriving DecidableEq, Repr

/-! ## common/statemachine/addrgen.go -/

/-- Calls that `generateCandidateAddresses` makes to code outside `addrgen.go`. -/
inductive GenEvent (M : Type) where
  | getProbabilisticAddressModel (dirPath : String)
  | generateMulti (model : M) (fromNybble : Nat) (generateCount : Int) (updateFreq : Int)
  | getTimedFilePath (dirPath : String)
  | toAddressesFile (addresses : IPv6AddressList) (filePath : String) (updateFreq : Int)
  deriving DecidableEq, Repr

/-- The collaborators of `generateCandidateAddresses`; `M` is the type of the
probabilistic address model.  `GenerateMulti` is a method on the model object:
its result carries the model object as it is after the call. -/
structure GenEnv (σ ε M : Type) where
  Join : JoinFn
  /-- `conf.GetCandidateAddressDirPath()` -/
  GetCandidateAddressDirPath : Configuration → String
  /-- `data.GetProbabilisticAddressModel(dir)` -/
  GetProbabilisticAddressModel : String → σ → (M × Option ε) × σ
  /-- `model.GenerateMulti(fromNybble, count, updateFreq)` -/
  GenerateMulti : M → Nat → Int → Int → σ → (IPv6AddressList × M) × σ
  /-- `getTimedFilePath(dir)` -/
  getTimedFilePath : String → σ → String
  /-- `addresses.ToAddressesFile(path, updateFreq)` and the error it reports -/
  ToAddressesFile : IPv6AddressList → String → Int → σ → Option ε × σ

structure GenRun (σ ε M : Type) where
  err : Option ε
  world : σ
  trace : List (GenEvent M)
  /-- the model object held by the stage when it returns (`none`: never loaded) -/
  model : Option M

/-- `generateCandidateAddresses`.  The result of `ToAddressesFile` is an
expression statement in the source: whatever it reports is dropped. -/
def generateCandidateAddresses {σ ε M : Type} (env : GenEnv σ ε M) (conf : Configuration)
    (w : σ) : GenRun σ ε M :=
  let modelDir := conf.GetGeneratedModelDirPath env.Join
  match env.GetProbabilisticAddressModel modelDir w with
  | ((_, some err), w1) =>
    { err := some err, world := w1, trace := [GenEvent.getProbabilisticAddressModel modelDir],
      model := none }
  | ((model, none), w1) =>
    match env.GenerateMulti model conf.GenerateFirstNybble conf.GenerateAddressCount
        conf.GenerateUpdateFreq w1 with
    | ((addresses, model1), w2) =>
      let candDir := env.GetCandidateAddressDirPath conf
      let outputPath := env.getTimedFilePath candDir w2
      match env.ToAddressesFile addresses outputPath conf.GenWriteUpdateFreq w2 with
      | (_, w3) =>
        { err := none, world := w3,
          trace := [GenEvent.getProbabilisticAddressModel modelDir,
            GenEvent.generateMulti model conf.GenerateFirstNybble conf.GenerateAddressCount
              conf.GenerateUpdateFreq,
            GenEvent.getTimedFilePath candDir,
            GenEvent.toAddressesFile addresses outputPath conf.GenWriteUpdateFreq],
          model := some model1 }

/-- The address sequences handed to `ToAddressesFile` in a trace, in order. -/
def writtenAddresses {M : Type} : List (GenEvent M) → List (List IPv6Address)
  | [] => []
  | GenEvent.toAddressesFile addresses _ _ :: rest => addresses.Addresses :: writtenAddresses rest
  | _ :: rest => writtenAddresses rest

/-- A world that is just the address-list files written so far, newest first. -/
abbrev FileStore := List (String × List IPv6Address)

/-- Modelled from the spec: `ToAddressesFile`, whose body is not among the files
at hand.  An address list file is "newline-delimited ... one address per line",
and writing then reading back "yields bitwise-identical addresses in the same
order": the file at `filePath` holds the addresses it was given, in order. -/
def specToAddressesFile (addresses : IPv6AddressList) (filePath : String) (_updateFreq : Int)
    (w : FileStore) : Option String × FileStore :=
  (none, (filePath, addresses.Addresses) :: w)

/-- A `ToAddressesFile` that fails: nothing is written and an error is reported. -/
def failingToAddressesFile (_addresses : IPv6AddressList) (_filePath : String)
    (_updateFreq : Int) (w : FileStore) : Option String × FileStore :=
  (some "open: permission denied", w)

/-- The content of the file at `path`, if it was written. -/
def FileStore.read (w : FileStore) (path : String) : Option (List IPv6Address) :=
  (w.find? (fun f => f.1 == path)).map (fun f => f.2)

/-- A concrete environment over `FileStore`: the "model" is the address
sequence `GenerateMulti` returns, and it always loads. -/
def listEnv (model : List IPv6Address)
    (toFile : IPv6AddressList → String → Int → FileStore → Option String × FileStore) :
    GenEnv FileStore String (List IPv6Address) :=
  { Join := fun a b => a ++ "/" ++ b
    GetCandidateAddressDirPath := fun conf => conf.BaseOutputDirectory ++ "/candidates"
    GetProbabilisticAddressModel := fun _ w => ((model, none), w)
    GenerateMulti := fun m _ _ _ w => (({ Addresses := m }, m), w)
    getTimedFilePath := fun dir _ => dir ++ "/0"
    ToAddressesFile := toFile }

/-- A concrete environment whose model cannot be loaded. -/
def noModelEnv : GenEnv FileStore String (List IPv6Address) :=
  { listEnv [] specToAddressesFile with
    GetProbabilisticAddressModel := fun _ w => (([], some "no model"), w) }

/-- The address `::1`. -/
def loopback : IPv6Address := { Content := [0, 0, 0, 0, 0, 0, 0, 0, 0, 0, 0, 0, 0, 0, 0, 1] }

/-- The all-zero address `::`. -/
def unspecified : IPv6Address := { Content := List.replicate 16 0 }

/-! ## common/statemachine/blscan.go -/

/-- Calls that `zmapScanNetworkRanges` makes to code outside `blscan.go`. -/
inductive ScanEvent where
  | getMostRecentFilePathFromDir (dirPath : String)
  | countLinesInFile (filePath : String)
  | getTimedFilePath (dirPath : String)
  | zmapScanFromConfig (inputPath outputPath : String)
  deriving DecidableEq, Repr

/-- The collaborators of `zmapScanNetworkRanges`. -/
structure ScanEnv (σ ε : Type) where
  /-- `conf.GetNetworkScanTargetsDirPath()` -/
  GetNetworkScanTargetsDirPath : Configuration → String
  /-- `conf.GetNetworkScanResultsDirPath()` -/
  GetNetworkScanResultsDirPath : Configuration → String
  /-- `data.GetMostRecentFilePathFromDir(dir)` -/
  GetMostRecentFilePathFromDir : String → σ → (String × Option ε) × σ
  /-- `fs.CountLinesInFile(path)` -/
  CountLinesInFile : String → σ → (Int × Option ε) × σ
  /-- `getTimedFilePath(dir)` -/
  getTimedFilePath : String → σ → String
  /-- `shell.ZmapScanFromConfig(conf, inputPath, outputPath)` -/
  ZmapScanFromConfig : Configuration → String → String → σ → (String × Option ε) × σ

/-- An integer wrapped to 64-bit two's complement. -/
def wrapInt64 (v : Int) : Int := (v + 2 ^ 63) % 2 ^ 64 - 2 ^ 63

/-- Does the integer fit an `int64`? -/
def fitsInt64 (v : Int) : Prop := -(2 ^ 63) ≤ v ∧ v < 2 ^ 63

instance (v : Int) : Decidable (fitsInt64 v) := by
  unfold fitsInt64
  infer_instance

/-- `Inc(i)` on a go-metrics counter holding `count`: `atomic.AddInt64(&c.count, i)`,
an `int64` addition that wraps.  (`int64(n)` of an `int` is the identity, `int`
being 64 bits wide.) -/
def counterInc (count i : Int) : Int := wrapInt64 (count + i)

/-- The two package-level counters `blCandidateCounter` and
`blCandidateResponseCounter`: the `int64` counts they hold. -/
structure Counters where
  blCandidateCounter : Int
  blCandidateResponseCounter : Int
  deriving DecidableEq, Repr

/-- An `Inc` call on one of the two counters, with its argument. -/
inductive CounterCall where
  | blCandidateCounterInc (i : Int)
  | blCandidateResponseCounterInc (i : Int)
  deriving DecidableEq, Repr

structure ScanRun (σ ε : Type) where
  err : Option ε
  world : σ
  counters : Counters
  /-- the `Inc` calls made, in order -/
  incs : List CounterCall
  trace : List ScanEvent

/-- `zmapScanNetworkRanges` (the live version, lines 23-54). -/
def zmapScanNetworkRanges {σ ε : Type} (env : ScanEnv σ ε) (conf : Configuration)
    (c : Counters) (w : σ) : ScanRun σ ε :=
  let targetsDir := env.GetNetworkScanTargetsDirPath conf
  match env.GetMostRecentFilePathFromDir targetsDir w with
  | ((_, some err), w1) =>
    { err := some err, world := w1, counters := c, incs := [],
      trace := [ScanEvent.getMostRecentFilePathFromDir targetsDir] }
  | ((addrsPath, none), w1) =>
    match env.CountLinesInFile addrsPath w1 with
    | ((_, some err), w2) =>
      { err := some err, world := w2, counters := c, incs := [],
        trace := [ScanEvent.getMostRecentFilePathFromDir targetsDir,
          ScanEvent.countLinesInFile addrsPath] }
    | ((addrsCount, none), w2) =>
      let c1 : Counters :=
        { c with blCandidateCounter := counterInc c.blCandidateCounter addrsCount }
      let incs1 := [CounterCall.blCandidateCounterInc addrsCount]
      let resultsDir := env.GetNetworkScanResultsDirPath conf
      let outputPath := env.getTimedFilePath resultsDir w2
      let tr := [ScanEvent.getMostRecentFilePathFromDir targetsDir,
        ScanEvent.countLinesInFile addrsPath, ScanEvent.getTimedFilePath resultsDir,
        ScanEvent.zmapScanFromConfig addrsPath outputPath]
      match env.ZmapScanFromConfig conf addrsPath outputPath w2 with
      | ((_, some err), w3) =>
        { err := some err, world := w3, counters := c1, incs := incs1, trace := tr }
      | ((_, none), w3) =>
        match env.CountLinesInFile outputPath w3 with
        | ((_, some err), w4) =>
          { err := some err, world := w4, counters := c1, incs := incs1,
            trace := tr ++ [ScanEvent.countLinesInFile outputPath] }
        | ((resultsCount, none), w4) =>
          { err := none, world := w4,
            counters :=
              { c1 with
                blCandidateResponseCounter :=
                  counterInc c1.blCandidateResponseCounter resultsCount },
            incs := incs1 ++ [CounterCall.blCandidateResponseCounterInc resultsCount],
            trace := tr ++ [ScanEvent.countLinesInFile outputPath] }

/-! ## common/statemachine/blscan.go, the disabled legacy body (lines 56-171)

Two loops of the disabled version are modelled: the generation of the probe
addresses (lines 79-94) and the blacklist decision (lines 147-167).  Go's `int`
is taken to be 64 bits wide; an index outside `[0, 16)` panics, which is `none`. -/

/-- The source of `rand.Intn(2)`: the `k`-th draw returns `rnd k % 2`. -/
abbrev RandSource := Nat → Nat

/-- The conversion `(uint)(v)`. -/
def toUint (v : Int) : Nat := (v % 2 ^ 64).toNat

/-- The conversion `(byte)(v)`. -/
def toByte (v : Int) : Nat := (v % 256).toNat

/-- `v << s` on `int`: a shift count of 64 or more gives 0. -/
def shlInt (v : Int) (s : Nat) : Int := if s < 64 then wrapInt64 (v * 2 ^ s) else 0

/-- `^v` on `int`. -/
def notInt (v : Int) : Int := -v - 1

/-- `^b` on `byte`. -/
def notByte (b : Nat) : Nat := 255 - b % 256

/-- The loop `for x := conf.NetworkGroupingSize; x < 128; x++ { ... }` on
`addr.Content`; the first argument is the number of iterations left,
`(128 - x).toNat`, and `k` counts the random draws made so far. -/
def randomHostBits (rnd : RandSource) : Nat → Int → Nat → List Nat → Option (List Nat × Nat)
  | 0, _, k, content => some (content, k)
  | n + 1, x, k, content =>
    let byteOff : Int := Int.tdiv x 8
    let bitOff : Nat := toUint (x - byteOff * 8)
    let byteMask : Nat := toByte (notInt (shlInt (Int.ofNat (rnd k % 2)) bitOff))
    if 0 ≤ byteOff ∧ byteOff < 16 then
      let i := byteOff.toNat
      randomHostBits rnd n (x + 1) (k + 1)
        (content.set i (content.getD i 0 ||| notByte byteMask))
    else none

/-- The loop `for x := 0; x < conf.NetworkPingCount; x++ { ... }` for one
network: each round copies `net.Content`, randomises it, appends the address to
`netRange` and writes its line to the probe file. -/
def probeBatch (rnd : RandSource) (toStr : IPv6Address → String) (conf : Configuration)
    (net : IPv6Address) :
    Nat → Nat → List IPv6Address → List String → Option (List IPv6Address × List String × Nat)
  | 0, k, netRange, file => some (netRange, file, k)
  | n + 1, k, netRange, file =>
    match randomHostBits rnd (128 - conf.NetworkGroupingSize).toNat conf.NetworkGroupingSize k
        net.Content with
    | none => none
    | some (content, k1) =>
      let addr : IPv6Address := { Content := content }
      probeBatch rnd toStr conf net n k1 (netRange ++ [addr]) (file ++ [toStr addr ++ "\n"])

/-- The loop `for _, net := range(nets.Addresses) { ... }` building `netRanges`. -/
def generateNetRanges (rnd : RandSource) (toStr : IPv6Address → String) (conf : Configuration) :
    List IPv6Address → Nat → List (List IPv6Address) → List String →
      Option (List (List IPv6Address) × List String × Nat)
  | [], k, netRanges, file => some (netRanges, file, k)
  | net :: rest, k, netRanges, file =>
    match probeBatch rnd toStr conf net conf.NetworkPingCount.toNat k [] file with
    | none => none
    | some (netRange, file1, k1) =>
      generateNetRanges rnd toStr conf rest k1 (netRanges ++ [netRange]) file1

/-- The innermost loop of the blacklist decision: does some responder have the
same `Content` as `netAddr`? -/
def found (netAddr : IPv6Address) : List IPv6Address → Bool
  | [] => false
  | addr :: rest => if netAddr.Content = addr.Content then true else found netAddr rest

/-- The loop over one `netRange` that computes `addrMiss`. -/
def addrMiss (addrs : IPv6AddressList) : List IPv6Address → Bool
  | [] => false
  | netAddr :: rest => if found netAddr addrs.Addresses = false then true else addrMiss addrs rest

/-- The loop `for pos, netRange := range netRanges { ... }`: `file` is the list
of strings written to the blacklist file so far. -/
def blacklistLoop (toStr : IPv6Address → String) (nets addrs : IPv6AddressList) :
    List (List IPv6Address) → Nat → List String → Option (List String)
  | [], _, file => some file
  | netRange :: rest, pos, file =>
    if addrMiss addrs netRange = false then
      match nets.Addresses[pos]? with
      | some net => blacklistLoop toStr nets addrs rest (pos + 1) (file ++ [toStr net ++ "\n"])
      | none => none
    else blacklistLoop toStr nets addrs rest (pos + 1) file

/-! ## Network containment, as the specification words it -/

/-- Bit `i` of an address, bit 0 being the most significant bit of byte 0. -/
def IPv6Address.bit (a : IPv6Address) (i : Nat) : Nat :=
  (a.Content.getD (i / 8) 0 / 2 ^ (7 - i % 8)) % 2

/-- "Prefix A contains address X iff X's leading `length` bits equal A's". -/
def withinNetwork (length : Nat) (net a : IPv6Address) : Bool :=
  (List.range length).all (fun i => a.bit i == net.bit i)

/-- The directories passed to `fs.CreateDirectoryIfNotExist` in a trace, in call order. -/
def createdDirectories : List Event → List String
  | [] => []
  | Event.createDirectoryIfNotExist dirPath :: rest => dirPath :: createdDirectories rest
  | _ :: rest => createdDirectories rest

/-- A world for `main.go`: the paths that exist, and whether zmap is installed. -/
structure Disk where
  paths : List String
  zmap : Bool
  deriving DecidableEq, Repr

/-- A concrete `main.go` environment over `Disk`.  Directory creation fails in
the directories listed in `readOnly`; the configuration file always loads. -/
def diskEnv (conf : Configuration) (readOnly : List String) : MainEnv Disk String :=
  { Join := fun a b => a ++ "/" ++ b
    GetConf := fun _ _ w => ((conf, none), w)
    SetOutput := fun _ _ _ _ _ w => w
    CreateDirectoryIfNotExist := fun dirPath w =>
      if readOnly.contains dirPath then (some "mkdir: permission denied", w)
      else (none, { w with paths := dirPath :: w.paths })
    Stat := fun path w => if w.paths.contains path then none else some "no such file"
    IsNotExist := fun err => err == "no such file"
    InitStateFile := fun path w => (none, { w with paths := path :: w.paths })
    IsZmapAvailable := fun _ w => ((w.zmap, none), w)
    MetricsLog := fun _ w => w
    Seed := fun w => w
    RunStateMachine := fun _ w => (none, w) }

/-- A sample configuration. -/
def sampleConf : Configuration :=
  { Configuration.zero with
    BaseOutputDirectory := "out", GeneratedModelDirectory := "model",
    PingResultDirectory := "ping", NetworkGroupDirectory := "groups",
    NetworkBlacklistDirectory := "blacklist", CleanPingResultDirectory := "clean",
    StateFileName := "state", GenerateAddressCount := 2, NetworkGroupingSize := 4,
    NetworkPingCount := 1 }

/-- Is the event a call of the external zmap scan? -/
def ScanEvent.isScan : ScanEvent → Bool
  | ScanEvent.zmapScanFromConfig _ _ => true
  | _ => false

/-- A world for `blscan.go`: the address-list files, as path and line count. -/
abbrev LineStore := List (String × Int)

/-- A concrete scan environment over `LineStore`: the most recent targets file
is `targets`; when `zmapWorks`, the scan writes an output file of `responders`
lines, otherwise it fails and writes nothing. -/
def lineEnv (targets : String) (zmapWorks : Bool) (responders : Int) :
    ScanEnv LineStore String :=
  { GetNetworkScanTargetsDirPath := fun conf => conf.BaseOutputDirectory ++ "/targets"
    GetNetworkScanResultsDirPath := fun conf => conf.BaseOutputDirectory ++ "/results"
    GetMostRecentFilePathFromDir := fun _ w => ((targets, none), w)
    CountLinesInFile := fun path w =>
      match w.find? (fun f => f.1 == path) with
      | some f => ((f.2, none), w)
      | none => ((0, some "open: no such file"), w)
    getTimedFilePath := fun dir _ => dir ++ "/0"
    ZmapScanFromConfig := fun _ _ outputPath w =>
      if zmapWorks then (("", none), (outputPath, responders) :: w)
      else (("", some "exit status 1"), w) }

/-- Is the event a call of `GenerateMulti`? -/
def GenEvent.isGenerateMulti {M : Type} : GenEvent M → Bool
  | GenEvent.generateMulti _ _ _ _ => true
  | _ => false

/-- A rendering of addresses for the examples: two hexadecimal digits per byte. -/
def label (a : IPv6Address) : String :=
  String.mk (a.Content.flatMap (fun b => [Nat.digitChar (b / 16 % 16), Nat.digitChar (b % 16)]))

/-- An empty disk with zmap installed. -/
def freshDisk : Disk := { paths := [], zmap := true }

/-- A disk on which the pipeline has run before: the state file is there. -/
def usedDisk : Disk :=
  { paths := ["out/state", "out/clean", "out/blacklist", "out/groups", "out/ping", "out/model",
      "out"],
    zmap := false }

/-- A configuration whose state file lies one level below the base directory. -/
def nestedStateConf : Configuration := { sampleConf with StateFileName := "f/state" }

/-- A disk on which `out/f` is there already, as a regular file. -/
def clutteredDisk : Disk := { paths := ["out/f"], zmap := true }

/-- The environment `diskEnv` on a disk where `out/f` is a regular file:
`os.Stat("out/f/state")` fails with ENOTDIR, for which `os.IsNotExist` is
false, and creating that file fails in the same way. -/
def enotdirEnv (conf : Configuration) : MainEnv Disk String :=
  { diskEnv conf [] with
    Stat := fun path w =>
      if w.paths.contains path then none
      else if path = "out/f/state" then some "stat out/f/state: not a directory"
      else some "no such file"
    InitStateFile := fun path w =>
      if path = "out/f/state" then (some "open out/f/state: not a directory", w)
      else (none, { w with paths := path :: w.paths }) }

/-! ## Theorems -/

/-! ### Directory creation -/

theorem createdDirectories_append (xs ys : List Event) :
    createdDirectories (xs ++ ys) = createdDirectories xs ++ createdDirectories ys := by
  induction xs with
  | nil => rfl
  | cons e rest ih => cases e <;> simp [createdDirectories, ih]

theorem createDirectories_spec {σ ε : Type} (env : MainEnv σ ε) (dirs : List String) :
    ∀ (w : σ) (tr : List Event),
      ∃ k, k ≤ dirs.length ∧ (dirs ≠ [] → 1 ≤ k) ∧
        (createDirectories env dirs w tr).trace =
          tr ++ (dirs.take k).map Event.createDirectoryIfNotExist ∧
        ((createDirectories env dirs w tr).err = none → k = dirs.length) := by
  induction dirs with
  | nil => intro w tr; exact ⟨0, by simp [createDirectories]⟩
  | cons d rest ih =>
    intro w tr
    rcases h : env.CreateDirectoryIfNotExist d w with ⟨_ | e, w1⟩
    · obtain ⟨k, hk, _, htr, herr⟩ := ih w1 (tr ++ [Event.createDirectoryIfNotExist d])
      refine ⟨k + 1, by simpa using hk, by simp, ?_, ?_⟩
      · simp only [createDirectories, h, htr]; simp
      · simp only [createDirectories, h]; intro h0; simp [herr h0]
    · refine ⟨1, by simp, by simp, ?_, ?_⟩
      · simp [createDirectories, h]
      · simp [createDirectories, h]

theorem createdDirectories_map (dirs : List String) :
    createdDirectories (dirs.map Event.createDirectoryIfNotExist) = dirs := by
  induction dirs with
  | nil => rfl
  | cons d rest ih => simp [createdDirectories, ih]

/-- C10: `GetAllDirectories` returns exactly six paths, the base output
directory first and then the model, ping-result, network-group,
network-blacklist and clean-ping-result directories, each being
`filepath.Join(BaseOutputDirectory, <subdirectory>)` and equal to its getter;
`GetStateFilePath` is `filepath.Join(BaseOutputDirectory, StateFileName)`; and
the directories `initFilesystem` creates are, in call order, an initial segment
of that list starting with the base directory (all six when no creation fails). -/
theorem getAllDirectories_layout {σ ε : Type} (env : MainEnv σ ε) (config : Configuration)
    (w : σ) :
    config.GetAllDirectories env.Join =
        [ config.BaseOutputDirectory,
          env.Join config.BaseOutputDirectory config.GeneratedModelDirectory,
          env.Join config.BaseOutputDirectory config.PingResultDirectory,
          env.Join config.BaseOutputDirectory config.NetworkGroupDirectory,
          env.Join config.BaseOutputDirectory config.NetworkBlacklistDirectory,
          env.Join config.BaseOutputDirectory config.CleanPingResultDirectory ] ∧
      config.GetAllDirectories env.Join =
        [ config.BaseOutputDirectory, config.GetGeneratedModelDirPath env.Join,
          config.GetPingResultDirPath env.Join, config.GetNetworkGroupDirPath env.Join,
          config.GetNetworkBlacklistDirPath env.Join, config.GetCleanPingDirPath env.Join ] ∧
      (config.GetAllDirectories env.Join).length = 6 ∧
      config.GetStateFilePath env.Join =
        env.Join config.BaseOutputDirectory config.StateFileName ∧
      (∃ k, 1 ≤ k ∧ k ≤ 6 ∧
        createdDirectories (initFilesystem env config w).trace =
          (config.GetAllDirectories env.Join).take k ∧
        (createdDirectories (initFilesystem env config w).trace).head? =
          some config.BaseOutputDirectory ∧
        ((createDirectories env (config.GetAllDirectories env.Join) w []).err = none →
          k = 6)) := by
  refine ⟨rfl, rfl, rfl, rfl, ?_⟩
  obtain ⟨k, hk, hk1, htr, herr⟩ :=
    createDirectories_spec env (config.GetAllDirectories env.Join) w []
  have hlen : (config.GetAllDirectories env.Join).length = 6 := rfl
  have hk1 : 1 ≤ k := hk1 (by simp [Configuration.GetAllDirectories])
  have hcd : createdDirectories (initFilesystem env config w).trace =
      (config.GetAllDirectories env.Join).take k := by
    unfold initFilesystem
    simp only []
    split
    · simp only [htr, List.nil_append, createdDirectories_map]
    · split
      · split <;>
          simp only [htr, List.nil_append, createdDirectories_append, createdDirectories_map,
            createdDirectories, List.append_nil]
      · simp only [htr, List.nil_append, createdDirectories_append, createdDirectories_map,
          createdDirectories, List.append_nil]
  refine ⟨k, hk1, hlen ▸ hk, hcd, ?_, fun h => hlen ▸ herr h⟩
  rw [hcd]
  obtain ⟨j, rfl⟩ : ∃ j, k = j + 1 := ⟨k - 1, by omega⟩
  simp [Configuration.GetAllDirectories]

/-! ### `initFilesystem` and `main` -/

theorem createDirectories_trace_events {σ ε : Type} (env : MainEnv σ ε) (dirs : List String)
    (w : σ) (ev : Event) (h : ev ∈ (createDirectories env dirs w []).trace) :
    ∃ d, ev = Event.createDirectoryIfNotExist d := by
  obtain ⟨k, -, -, htr, -⟩ := createDirectories_spec env dirs w []
  rw [htr] at h
  simp only [List.nil_append, List.mem_map] at h
  obtain ⟨d, -, rfl⟩ := h
  exact ⟨d, rfl⟩

theorem initFilesystem_cases {σ ε : Type} (env : MainEnv σ ε) (conf : Configuration) (w : σ) :
    (∀ e, (createDirectories env (conf.GetAllDirectories env.Join) w []).err = some e →
        (initFilesystem env conf w).err = some e ∧
        (initFilesystem env conf w).world =
          (createDirectories env (conf.GetAllDirectories env.Join) w []).world ∧
        (initFilesystem env conf w).trace =
          (createDirectories env (conf.GetAllDirectories env.Join) w []).trace) ∧
    ((createDirectories env (conf.GetAllDirectories env.Join) w []).err = none →
        statIsNotExist env (conf.GetStateFilePath env.Join)
          (createDirectories env (conf.GetAllDirectories env.Join) w []).world = false →
        (initFilesystem env conf w).err = none ∧
        (initFilesystem env conf w).world =
          (createDirectories env (conf.GetAllDirectories env.Join) w []).world ∧
        (initFilesystem env conf w).trace =
          (createDirectories env (conf.GetAllDirectories env.Join) w []).trace ++
            [Event.stat (conf.GetStateFilePath env.Join)]) ∧
    ((createDirectories env (conf.GetAllDirectories env.Join) w []).err = none →
        statIsNotExist env (conf.GetStateFilePath env.Join)
          (createDirectories env (conf.GetAllDirectories env.Join) w []).world = true →
        (initFilesystem env conf w).err =
          (env.InitStateFile (conf.GetStateFilePath env.Join)
            (createDirectories env (conf.GetAllDirectories env.Join) w []).world).1 ∧
        (initFilesystem env conf w).world =
          (env.InitStateFile (conf.GetStateFilePath env.Join)
            (createDirectories env (conf.GetAllDirectories env.Join) w []).world).2 ∧
        (initFilesystem env conf w).trace =
          (createDirectories env (conf.GetAllDirectories env.Join) w []).trace ++
            [Event.stat (conf.GetStateFilePath env.Join),
             Event.initStateFile (conf.GetStateFilePath env.Join)]) := by
  refine ⟨?_, ?_, ?_⟩
  · intro e he
    simp [initFilesystem, he]
  · intro h0 hs
    simp [initFilesystem, h0, hs]
  · intro h0 hs
    unfold initFilesystem
    simp only [h0, hs, if_true]
    rcases h : env.InitStateFile (conf.GetStateFilePath env.Join)
      (createDirectories env (conf.GetAllDirectories env.Join) w []).world with ⟨_ | e, w1⟩ <;>
      simp

/-- What `initFilesystem` does in every world: it calls
`statemachine.InitStateFile` if and only if every directory creation succeeded
and the error of `os.Stat` on the state file path satisfies `os.IsNotExist`, and
then it calls it once, on `GetStateFilePath()`, after the `Stat`.  For every
other result of `Stat` (no error, or another error) nothing is done after the
`Stat` and `nil` is returned; when a directory creation fails that error is
returned and neither `Stat` nor `InitStateFile` is reached. -/
theorem initFilesystem_state_file {σ ε : Type} (env : MainEnv σ ε) (conf : Configuration)
    (w : σ) :
    ((∃ p, Event.initStateFile p ∈ (initFilesystem env conf w).trace) ↔
        ((createDirectories env (conf.GetAllDirectories env.Join) w []).err = none ∧
          statIsNotExist env (conf.GetStateFilePath env.Join)
            (createDirectories env (conf.GetAllDirectories env.Join) w []).world = true)) ∧
    ((createDirectories env (conf.GetAllDirectories env.Join) w []).err = none →
        statIsNotExist env (conf.GetStateFilePath env.Join)
          (createDirectories env (conf.GetAllDirectories env.Join) w []).world = true →
        (initFilesystem env conf w).trace =
          (createDirectories env (conf.GetAllDirectories env.Join) w []).trace ++
            [Event.stat (conf.GetStateFilePath env.Join),
             Event.initStateFile (conf.GetStateFilePath env.Join)] ∧
        (initFilesystem env conf w).err =
          (env.InitStateFile (conf.GetStateFilePath env.Join)
            (createDirectories env (conf.GetAllDirectories env.Join) w []).world).1) ∧
    ((createDirectories env (conf.GetAllDirectories env.Join) w []).err = none →
        statIsNotExist env (conf.GetStateFilePath env.Join)
          (createDirectories env (conf.GetAllDirectories env.Join) w []).world = false →
        (initFilesystem env conf w).err = none ∧
        (initFilesystem env conf w).world =
          (createDirectories env (conf.GetAllDirectories env.Join) w []).world ∧
        (initFilesystem env conf w).trace =
          (createDirectories env (conf.GetAllDirectories env.Join) w []).trace ++
            [Event.stat (conf.GetStateFilePath env.Join)]) ∧
    (∀ e, (createDirectories env (conf.GetAllDirectories env.Join) w []).err = some e →
        (initFilesystem env conf w).err = some e ∧
        (initFilesystem env conf w).world =
          (createDirectories env (conf.GetAllDirectories env.Join) w []).world ∧
        (initFilesystem env conf w).trace =
          (createDirectories env (conf.GetAllDirectories env.Join) w []).trace) ∧
    (∀ ev ∈ (createDirectories env (conf.GetAllDirectories env.Join) w []).trace,
        ∃ d, ev = Event.createDirectoryIfNotExist d) := by
  obtain ⟨hC, hB, hA⟩ := initFilesystem_cases env conf w
  have hev := createDirectories_trace_events env (conf.GetAllDirectories env.Join) w
  refine ⟨?_, fun h0 hs => ⟨(hA h0 hs).2.2, (hA h0 hs).1⟩, hB, hC, hev⟩
  constructor
  · rintro ⟨p, hp⟩
    rcases h0 : (createDirectories env (conf.GetAllDirectories env.Join) w []).err with _ | e
    · refine ⟨rfl, ?_⟩
      by_contra hs
      have hs : statIsNotExist env (conf.GetStateFilePath env.Join)
          (createDirectories env (conf.GetAllDirectories env.Join) w []).world = false := by
        simpa using hs
      rw [(hB h0 hs).2.2] at hp
      simp only [List.mem_append, List.mem_singleton] at hp
      rcases hp with hp | hp
      · obtain ⟨d, hd⟩ := hev _ hp
        exact Event.noConfusion hd
      · exact Event.noConfusion hp
    · rw [(hC e h0).2.2] at hp
      obtain ⟨d, hd⟩ := hev _ hp
      exact Event.noConfusion hd
  · rintro ⟨h0, hs⟩
    exact ⟨conf.GetStateFilePath env.Join, by rw [(hA h0 hs).2.2]; simp⟩

theorem initFilesystem_no_runStateMachine {σ ε : Type} (env : MainEnv σ ε)
    (conf : Configuration) (w : σ) :
    Event.runStateMachine ∉ (initFilesystem env conf w).trace := by
  obtain ⟨hC, hB, hA⟩ := initFilesystem_cases env conf w
  have hev := createDirectories_trace_events env (conf.GetAllDirectories env.Join) w
  have hd : Event.runStateMachine ∉
      (createDirectories env (conf.GetAllDirectories env.Join) w []).trace := by
    intro h
    obtain ⟨d, hd⟩ := hev _ h
    exact Event.noConfusion hd
  rcases h0 : (createDirectories env (conf.GetAllDirectories env.Join) w []).err with _ | e
  · rcases hs : statIsNotExist env (conf.GetStateFilePath env.Join)
        (createDirectories env (conf.GetAllDirectories env.Join) w []).world
    · rw [(hB h0 hs).2.2]; simpa using hd
    · rw [(hA h0 hs).2.2]; simpa using hd
  · rw [(hC e h0).2.2]; exact hd

/-- C7: in `main`, `statemachine.RunStateMachine` is called if and only if
`config.LoadFromFile` returned no error, `initFilesystem` returned no error and
`shell.IsZmapAvailable` returned `true` without error; it is called at most
once; and whenever it is not called the process ends in `log.Fatal`. -/
theorem main_enters_state_machine_iff {σ ε : Type} (env : MainEnv σ ε) (w : σ) :
    (Event.runStateMachine ∈ (main env w).trace ↔
        ∃ conf w1 w3,
          LoadFromFile env "config.json" w = ((conf, none), w1) ∧
          (initFilesystem env conf
            (if conf.LogToFile then (setupLogging env conf w1).1 else w1)).err = none ∧
          env.IsZmapAvailable conf
            (initFilesystem env conf
              (if conf.LogToFile then (setupLogging env conf w1).1 else w1)).world =
            ((true, none), w3)) ∧
    (Event.runStateMachine ∉ (main env w).trace → (main env w).outcome.isFatal = true) ∧
    (main env w).trace.count Event.runStateMachine ≤ 1 := by
  rcases hload : LoadFromFile env "config.json" w with ⟨⟨conf, _ | e⟩, w1⟩
  swap
  · refine ⟨?_, ?_, ?_⟩ <;> simp [main, hload, Outcome.isFatal]
  have hlog : ((if conf.LogToFile then setupLogging env conf w1 else (w1, [])) :
      σ × List Event).1 = (if conf.LogToFile then (setupLogging env conf w1).1 else w1) := by
    split <;> rfl
  have hlogtr : Event.runStateMachine ∉
      ((if conf.LogToFile then setupLogging env conf w1 else (w1, [])) : σ × List Event).2 := by
    split <;> simp [setupLogging]
  have hlogcnt : (((if conf.LogToFile then setupLogging env conf w1 else (w1, [])) :
      σ × List Event).2).count Event.runStateMachine = 0 :=
    List.count_eq_zero.mpr hlogtr
  have hfs := initFilesystem_no_runStateMachine env conf
    (if conf.LogToFile then (setupLogging env conf w1).1 else w1)
  have hfscnt := List.count_eq_zero.mpr hfs
  rcases hinit : (initFilesystem env conf
      (if conf.LogToFile then (setupLogging env conf w1).1 else w1)).err with _ | e
  swap
  · refine ⟨?_, ?_, ?_⟩ <;>
      simp [main, hload, hlog, hinit, Outcome.isFatal, hlogtr, hfs, hlogcnt, hfscnt]
  rcases hz : env.IsZmapAvailable conf (initFilesystem env conf
      (if conf.LogToFile then (setupLogging env conf w1).1 else w1)).world with
    ⟨⟨_ | _, _ | e⟩, w3⟩
  · refine ⟨?_, ?_, ?_⟩ <;>
      simp [main, hload, hlog, hinit, hz, Outcome.isFatal, hlogtr, hfs, hlogcnt, hfscnt]
  · refine ⟨?_, ?_, ?_⟩ <;>
      simp [main, hload, hlog, hinit, hz, Outcome.isFatal, hlogtr, hfs, hlogcnt, hfscnt]
  · have hmet : (initMetrics env conf w3).2.count Event.runStateMachine = 0 := by
      unfold initMetrics; split <;> simp
    refine ⟨⟨fun _ => ⟨conf, w1, w3, rfl, hinit, hz⟩, fun _ => ?_⟩, ?_, ?_⟩
    · simp only [main, hload, hlog, hinit, hz]
      split <;> simp
    · simp only [main, hload, hlog, hinit, hz]
      split <;> simp
    · simp only [main, hload, hlog, hinit, hz]
      split <;> simp [hlogcnt, hfscnt, hmet]
  · refine ⟨?_, ?_, ?_⟩ <;>
      simp [main, hload, hlog, hinit, hz, Outcome.isFatal, hlogtr, hfs, hlogcnt, hfscnt]

/-! ### `zmapScanNetworkRanges` -/

theorem scan_locate_fails {σ ε : Type} (env : ScanEnv σ ε) (conf : Configuration)
    (c : Counters) (w : σ) {v : String} {e : ε} {w1 : σ}
    (h1 : env.GetMostRecentFilePathFromDir (env.GetNetworkScanTargetsDirPath conf) w =
      ((v, some e), w1)) :
    zmapScanNetworkRanges env conf c w =
      { err := some e, world := w1, counters := c, incs := [],
        trace :=
          [ScanEvent.getMostRecentFilePathFromDir (env.GetNetworkScanTargetsDirPath conf)] } := by
  simp [zmapScanNetworkRanges, h1]

theorem scan_count_input_fails {σ ε : Type} (env : ScanEnv σ ε) (conf : Configuration)
    (c : Counters) (w : σ) {addrsPath : String} {w1 : σ} {v : Int} {e : ε} {w2 : σ}
    (h1 : env.GetMostRecentFilePathFromDir (env.GetNetworkScanTargetsDirPath conf) w =
      ((addrsPath, none), w1))
    (h2 : env.CountLinesInFile addrsPath w1 = ((v, some e), w2)) :
    zmapScanNetworkRanges env conf c w =
      { err := some e, world := w2, counters := c, incs := [],
        trace :=
          [ScanEvent.getMostRecentFilePathFromDir (env.GetNetworkScanTargetsDirPath conf),
           ScanEvent.countLinesInFile addrsPath] } := by
  simp [zmapScanNetworkRanges, h1, h2]

theorem scan_zmap_fails {σ ε : Type} (env : ScanEnv σ ε) (conf : Configuration)
    (c : Counters) (w : σ) {addrsPath : String} {w1 : σ} {addrsCount : Int} {w2 : σ}
    {v : String} {e : ε} {w3 : σ}
    (h1 : env.GetMostRecentFilePathFromDir (env.GetNetworkScanTargetsDirPath conf) w =
      ((addrsPath, none), w1))
    (h2 : env.CountLinesInFile addrsPath w1 = ((addrsCount, none), w2))
    (h3 : env.ZmapScanFromConfig conf addrsPath
      (env.getTimedFilePath (env.GetNetworkScanResultsDirPath conf) w2) w2 =
      ((v, some e), w3)) :
    zmapScanNetworkRanges env conf c w =
      { err := some e, world := w3,
        counters := { c with blCandidateCounter := counterInc c.blCandidateCounter addrsCount },
        incs := [CounterCall.blCandidateCounterInc addrsCount],
        trace :=
          [ScanEvent.getMostRecentFilePathFromDir (env.GetNetworkScanTargetsDirPath conf),
           ScanEvent.countLinesInFile addrsPath,
           ScanEvent.getTimedFilePath (env.GetNetworkScanResultsDirPath conf),
           ScanEvent.zmapScanFromConfig addrsPath
             (env.getTimedFilePath (env.GetNetworkScanResultsDirPath conf) w2)] } := by
  simp [zmapScanNetworkRanges, h1, h2, h3]

theorem scan_count_output_fails {σ ε : Type} (env : ScanEnv σ ε) (conf : Configuration)
    (c : Counters) (w : σ) {addrsPath : String} {w1 : σ} {addrsCount : Int} {w2 : σ}
    {out : String} {w3 : σ} {v : Int} {e : ε} {w4 : σ}
    (h1 : env.GetMostRecentFilePathFromDir (env.GetNetworkScanTargetsDirPath conf) w =
      ((addrsPath, none), w1))
    (h2 : env.CountLinesInFile addrsPath w1 = ((addrsCount, none), w2))
    (h3 : env.ZmapScanFromConfig conf addrsPath
      (env.getTimedFilePath (env.GetNetworkScanResultsDirPath conf) w2) w2 =
      ((out, none), w3))
    (h4 : env.CountLinesInFile
      (env.getTimedFilePath (env.GetNetworkScanResultsDirPath conf) w2) w3 =
      ((v, some e), w4)) :
    zmapScanNetworkRanges env conf c w =
      { err := some e, world := w4,
        counters := { c with blCandidateCounter := counterInc c.blCandidateCounter addrsCount },
        incs := [CounterCall.blCandidateCounterInc addrsCount],
        trace :=
          [ScanEvent.getMostRecentFilePathFromDir (env.GetNetworkScanTargetsDirPath conf),
           ScanEvent.countLinesInFile addrsPath,
           ScanEvent.getTimedFilePath (env.GetNetworkScanResultsDirPath conf),
           ScanEvent.zmapScanFromConfig addrsPath
             (env.getTimedFilePath (env.GetNetworkScanResultsDirPath conf) w2),
           ScanEvent.countLinesInFile
             (env.getTimedFilePath (env.GetNetworkScanResultsDirPath conf) w2)] } := by
  simp [zmapScanNetworkRanges, h1, h2, h3, h4]

theorem scan_succeeds {σ ε : Type} (env : ScanEnv σ ε) (conf : Configuration)
    (c : Counters) (w : σ) {addrsPath : String} {w1 : σ} {addrsCount : Int} {w2 : σ}
    {out : String} {w3 : σ} {resultsCount : Int} {w4 : σ}
    (h1 : env.GetMostRecentFilePathFromDir (env.GetNetworkScanTargetsDirPath conf) w =
      ((addrsPath, none), w1))
    (h2 : env.CountLinesInFile addrsPath w1 = ((addrsCount, none), w2))
    (h3 : env.ZmapScanFromConfig conf addrsPath
      (env.getTimedFilePath (env.GetNetworkScanResultsDirPath conf) w2) w2 =
      ((out, none), w3))
    (h4 : env.CountLinesInFile
      (env.getTimedFilePath (env.GetNetworkScanResultsDirPath conf) w2) w3 =
      ((resultsCount, none), w4)) :
    zmapScanNetworkRanges env conf c w =
      { err := none, world := w4,
        counters :=
          { blCandidateCounter := counterInc c.blCandidateCounter addrsCount,
            blCandidateResponseCounter :=
              counterInc c.blCandidateResponseCounter resultsCount },
        incs :=
          [CounterCall.blCandidateCounterInc addrsCount,
           CounterCall.blCandidateResponseCounterInc resultsCount],
        trace :=
          [ScanEvent.getMostRecentFilePathFromDir (env.GetNetworkScanTargetsDirPath conf),
           ScanEvent.countLinesInFile addrsPath,
           ScanEvent.getTimedFilePath (env.GetNetworkScanResultsDirPath conf),
           ScanEvent.zmapScanFromConfig addrsPath
             (env.getTimedFilePath (env.GetNetworkScanResultsDirPath conf) w2),
           ScanEvent.countLinesInFile
             (env.getTimedFilePath (env.GetNetworkScanResultsDirPath conf) w2)] } := by
  simp [zmapScanNetworkRanges, h1, h2, h3, h4]

/-- C2: `zmapScanNetworkRanges` returns `nil` if and only if locating the most
recent targets file, counting its lines, the zmap scan and counting the lines of
the output file all succeed; otherwise it returns the error of the first step
that fails and the trace ends with that step, so that no later step is
executed: the scan is not invoked when the targets file cannot be located or
read, and it is invoked at most once. -/
theorem zmapScanNetworkRanges_first_error {σ ε : Type} (env : ScanEnv σ ε)
    (conf : Configuration) (c : Counters) (w : σ) :
    ((zmapScanNetworkRanges env conf c w).err = none ↔
        ∃ addrsPath w1 addrsCount w2 out w3 resultsCount w4,
          env.GetMostRecentFilePathFromDir (env.GetNetworkScanTargetsDirPath conf) w =
            ((addrsPath, none), w1) ∧
          env.CountLinesInFile addrsPath w1 = ((addrsCount, none), w2) ∧
          env.ZmapScanFromConfig conf addrsPath
            (env.getTimedFilePath (env.GetNetworkScanResultsDirPath conf) w2) w2 =
            ((out, none), w3) ∧
          env.CountLinesInFile
            (env.getTimedFilePath (env.GetNetworkScanResultsDirPath conf) w2) w3 =
            ((resultsCount, none), w4)) ∧
    (∀ v e w1,
        env.GetMostRecentFilePathFromDir (env.GetNetworkScanTargetsDirPath conf) w =
          ((v, some e), w1) →
        (zmapScanNetworkRanges env conf c w).err = some e ∧
        (zmapScanNetworkRanges env conf c w).world = w1 ∧
        (zmapScanNetworkRanges env conf c w).trace =
          [ScanEvent.getMostRecentFilePathFromDir (env.GetNetworkScanTargetsDirPath conf)]) ∧
    (∀ addrsPath w1 v e w2,
        env.GetMostRecentFilePathFromDir (env.GetNetworkScanTargetsDirPath conf) w =
          ((addrsPath, none), w1) →
        env.CountLinesInFile addrsPath w1 = ((v, some e), w2) →
        (zmapScanNetworkRanges env conf c w).err = some e ∧
        (zmapScanNetworkRanges env conf c w).world = w2 ∧
        (zmapScanNetworkRanges env conf c w).trace =
          [ScanEvent.getMostRecentFilePathFromDir (env.GetNetworkScanTargetsDirPath conf),
           ScanEvent.countLinesInFile addrsPath]) ∧
    (∀ addrsPath w1 addrsCount w2 v e w3,
        env.GetMostRecentFilePathFromDir (env.GetNetworkScanTargetsDirPath conf) w =
          ((addrsPath, none), w1) →
        env.CountLinesInFile addrsPath w1 = ((addrsCount, none), w2) →
        env.ZmapScanFromConfig conf addrsPath
          (env.getTimedFilePath (env.GetNetworkScanResultsDirPath conf) w2) w2 =
          ((v, some e), w3) →
        (zmapScanNetworkRanges env conf c w).err = some e ∧
        (zmapScanNetworkRanges env conf c w).world = w3 ∧
        (zmapScanNetworkRanges env conf c w).trace =
          [ScanEvent.getMostRecentFilePathFromDir (env.GetNetworkScanTargetsDirPath conf),
           ScanEvent.countLinesInFile addrsPath,
           ScanEvent.getTimedFilePath (env.GetNetworkScanResultsDirPath conf),
           ScanEvent.zmapScanFromConfig addrsPath
             (env.getTimedFilePath (env.GetNetworkScanResultsDirPath conf) w2)]) ∧
    (∀ addrsPath w1 addrsCount w2 out w3 v e w4,
        env.GetMostRecentFilePathFromDir (env.GetNetworkScanTargetsDirPath conf) w =
          ((addrsPath, none), w1) →
        env.CountLinesInFile addrsPath w1 = ((addrsCount, none), w2) →
        env.ZmapScanFromConfig conf addrsPath
          (env.getTimedFilePath (env.GetNetworkScanResultsDirPath conf) w2) w2 =
          ((out, none), w3) →
        env.CountLinesInFile
          (env.getTimedFilePath (env.GetNetworkScanResultsDirPath conf) w2) w3 =
          ((v, some e), w4) →
        (zmapScanNetworkRanges env conf c w).err = some e ∧
        (zmapScanNetworkRanges env conf c w).world = w4 ∧
        (zmapScanNetworkRanges env conf c w).trace =
          [ScanEvent.getMostRecentFilePathFromDir (env.GetNetworkScanTargetsDirPath conf),
           ScanEvent.countLinesInFile addrsPath,
           ScanEvent.getTimedFilePath (env.GetNetworkScanResultsDirPath conf),
           ScanEvent.zmapScanFromConfig addrsPath
             (env.getTimedFilePath (env.GetNetworkScanResultsDirPath conf) w2),
           ScanEvent.countLinesInFile
             (env.getTimedFilePath (env.GetNetworkScanResultsDirPath conf) w2)]) ∧
    (zmapScanNetworkRanges env conf c w).trace.countP ScanEvent.isScan ≤ 1 := by
  refine ⟨?_, ?_, ?_, ?_, ?_, ?_⟩
  · constructor
    · intro h
      rcases h1 : env.GetMostRecentFilePathFromDir (env.GetNetworkScanTargetsDirPath conf) w
        with ⟨⟨addrsPath, _ | e1⟩, w1⟩
      swap
      · rw [scan_locate_fails env conf c w h1] at h; cases h
      rcases h2 : env.CountLinesInFile addrsPath w1 with ⟨⟨addrsCount, _ | e2⟩, w2⟩
      swap
      · rw [scan_count_input_fails env conf c w h1 h2] at h; cases h
      rcases h3 : env.ZmapScanFromConfig conf addrsPath
          (env.getTimedFilePath (env.GetNetworkScanResultsDirPath conf) w2) w2 with
        ⟨⟨out, _ | e3⟩, w3⟩
      swap
      · rw [scan_zmap_fails env conf c w h1 h2 h3] at h; cases h
      rcases h4 : env.CountLinesInFile
          (env.getTimedFilePath (env.GetNetworkScanResultsDirPath conf) w2) w3 with
        ⟨⟨resultsCount, _ | e4⟩, w4⟩
      swap
      · rw [scan_count_output_fails env conf c w h1 h2 h3 h4] at h; cases h
      exact ⟨addrsPath, w1, addrsCount, w2, out, w3, resultsCount, w4, rfl, h2, h3, h4⟩
    · rintro ⟨addrsPath, w1, addrsCount, w2, out, w3, resultsCount, w4, h1, h2, h3, h4⟩
      rw [scan_succeeds env conf c w h1 h2 h3 h4]
  · intro v e w1 h1
    rw [scan_locate_fails env conf c w h1]
    exact ⟨rfl, rfl, rfl⟩
  · intro addrsPath w1 v e w2 h1 h2
    rw [scan_count_input_fails env conf c w h1 h2]
    exact ⟨rfl, rfl, rfl⟩
  · intro addrsPath w1 addrsCount w2 v e w3 h1 h2 h3
    rw [scan_zmap_fails env conf c w h1 h2 h3]
    exact ⟨rfl, rfl, rfl⟩
  · intro addrsPath w1 addrsCount w2 out w3 v e w4 h1 h2 h3 h4
    rw [scan_count_output_fails env conf c w h1 h2 h3 h4]
    exact ⟨rfl, rfl, rfl⟩
  · rcases h1 : env.GetMostRecentFilePathFromDir (env.GetNetworkScanTargetsDirPath conf) w
      with ⟨⟨addrsPath, _ | e1⟩, w1⟩
    swap
    · rw [scan_locate_fails env conf c w h1]; simp [ScanEvent.isScan]
    rcases h2 : env.CountLinesInFile addrsPath w1 with ⟨⟨addrsCount, _ | e2⟩, w2⟩
    swap
    · rw [scan_count_input_fails env conf c w h1 h2]; simp [ScanEvent.isScan]
    rcases h3 : env.ZmapScanFromConfig conf addrsPath
        (env.getTimedFilePath (env.GetNetworkScanResultsDirPath conf) w2) w2 with
      ⟨⟨out, _ | e3⟩, w3⟩
    swap
    · rw [scan_zmap_fails env conf c w h1 h2 h3]; simp [ScanEvent.isScan]
    rcases h4 : env.CountLinesInFile
        (env.getTimedFilePath (env.GetNetworkScanResultsDirPath conf) w2) w3 with
      ⟨⟨resultsCount, _ | e4⟩, w4⟩
    swap
    · rw [scan_count_output_fails env conf c w h1 h2 h3 h4]; simp [ScanEvent.isScan]
    rw [scan_succeeds env conf c w h1 h2 h3 h4]; simp [ScanEvent.isScan]

theorem wrapInt64_of_fits (v : Int) (h : fitsInt64 v) : wrapInt64 v = v := by
  unfold fitsInt64 at h
  unfold wrapInt64
  omega

/-- C3: when `zmapScanNetworkRanges` returns `nil`, `blCandidateCounter` has
been increased by the line count of the targets file and
`blCandidateResponseCounter` by the line count of the scan output file (the
file the scan was told to write, counted after the scan): `Inc` was called
exactly once on each, with that line count, and each counter holds the `int64`
sum of its old count and that line count, the exact sum whenever it fits an
`int64`.  When it returns an error `Inc` was not called on
`blCandidateResponseCounter` and its count is unchanged. -/
theorem zmapScanNetworkRanges_counters {σ ε : Type} (env : ScanEnv σ ε)
    (conf : Configuration) (c : Counters) (w : σ) :
    ((zmapScanNetworkRanges env conf c w).err = none →
        ∃ addrsPath w1 addrsCount w2 out w3 resultsCount w4,
          env.GetMostRecentFilePathFromDir (env.GetNetworkScanTargetsDirPath conf) w =
            ((addrsPath, none), w1) ∧
          env.CountLinesInFile addrsPath w1 = ((addrsCount, none), w2) ∧
          env.ZmapScanFromConfig conf addrsPath
            (env.getTimedFilePath (env.GetNetworkScanResultsDirPath conf) w2) w2 =
            ((out, none), w3) ∧
          env.CountLinesInFile
            (env.getTimedFilePath (env.GetNetworkScanResultsDirPath conf) w2) w3 =
            ((resultsCount, none), w4) ∧
          (zmapScanNetworkRanges env conf c w).incs =
            [CounterCall.blCandidateCounterInc addrsCount,
             CounterCall.blCandidateResponseCounterInc resultsCount] ∧
          (zmapScanNetworkRanges env conf c w).counters.blCandidateCounter =
            wrapInt64 (c.blCandidateCounter + addrsCount) ∧
          (zmapScanNetworkRanges env conf c w).counters.blCandidateResponseCounter =
            wrapInt64 (c.blCandidateResponseCounter + resultsCount) ∧
          (fitsInt64 (c.blCandidateCounter + addrsCount) →
            (zmapScanNetworkRanges env conf c w).counters.blCandidateCounter =
              c.blCandidateCounter + addrsCount) ∧
          (fitsInt64 (c.blCandidateResponseCounter + resultsCount) →
            (zmapScanNetworkRanges env conf c w).counters.blCandidateResponseCounter =
              c.blCandidateResponseCounter + resultsCount)) ∧
    ((zmapScanNetworkRanges env conf c w).err ≠ none →
        (zmapScanNetworkRanges env conf c w).counters.blCandidateResponseCounter =
          c.blCandidateResponseCounter ∧
        ∀ i, CounterCall.blCandidateResponseCounterInc i ∉
          (zmapScanNetworkRanges env conf c w).incs) := by
  rcases h1 : env.GetMostRecentFilePathFromDir (env.GetNetworkScanTargetsDirPath conf) w
    with ⟨⟨addrsPath, _ | e1⟩, w1⟩
  swap
  · rw [scan_locate_fails env conf c w h1]; simp
  rcases h2 : env.CountLinesInFile addrsPath w1 with ⟨⟨addrsCount, _ | e2⟩, w2⟩
  swap
  · rw [scan_count_input_fails env conf c w h1 h2]; simp
  rcases h3 : env.ZmapScanFromConfig conf addrsPath
      (env.getTimedFilePath (env.GetNetworkScanResultsDirPath conf) w2) w2 with
    ⟨⟨out, _ | e3⟩, w3⟩
  swap
  · rw [scan_zmap_fails env conf c w h1 h2 h3]; simp
  rcases h4 : env.CountLinesInFile
      (env.getTimedFilePath (env.GetNetworkScanResultsDirPath conf) w2) w3 with
    ⟨⟨resultsCount, _ | e4⟩, w4⟩
  swap
  · rw [scan_count_output_fails env conf c w h1 h2 h3 h4]; simp
  rw [scan_succeeds env conf c w h1 h2 h3 h4]
  exact ⟨fun _ => ⟨addrsPath, w1, addrsCount, w2, out, w3, resultsCount, w4, rfl, h2, h3, h4,
    rfl, rfl, rfl, fun hf => wrapInt64_of_fits _ hf, fun hf => wrapInt64_of_fits _ hf⟩,
    fun h => absurd rfl h⟩

/-! ### `generateCandidateAddresses` -/

theorem generate_load_fails {σ ε M : Type} (env : GenEnv σ ε M) (conf : Configuration) (w : σ)
    {v : M} {e : ε} {w1 : σ}
    (h : env.GetProbabilisticAddressModel (conf.GetGeneratedModelDirPath env.Join) w =
      ((v, some e), w1)) :
    generateCandidateAddresses env conf w =
      { err := some e, world := w1,
        trace := [GenEvent.getProbabilisticAddressModel (conf.GetGeneratedModelDirPath env.Join)],
        model := none } := by
  simp [generateCandidateAddresses, h]

theorem generate_load_succeeds {σ ε M : Type} (env : GenEnv σ ε M) (conf : Configuration)
    (w : σ) {model : M} {w1 : σ}
    (h : env.GetProbabilisticAddressModel (conf.GetGeneratedModelDirPath env.Join) w =
      ((model, none), w1)) :
    generateCandidateAddresses env conf w =
      { err := none,
        world :=
          (env.ToAddressesFile
            (env.GenerateMulti model conf.GenerateFirstNybble conf.GenerateAddressCount
              conf.GenerateUpdateFreq w1).1.1
            (env.getTimedFilePath (env.GetCandidateAddressDirPath conf)
              (env.GenerateMulti model conf.GenerateFirstNybble conf.GenerateAddressCount
                conf.GenerateUpdateFreq w1).2)
            conf.GenWriteUpdateFreq
            (env.GenerateMulti model conf.GenerateFirstNybble conf.GenerateAddressCount
              conf.GenerateUpdateFreq w1).2).2,
        trace :=
          [GenEvent.getProbabilisticAddressModel (conf.GetGeneratedModelDirPath env.Join),
           GenEvent.generateMulti model conf.GenerateFirstNybble conf.GenerateAddressCount
             conf.GenerateUpdateFreq,
           GenEvent.getTimedFilePath (env.GetCandidateAddressDirPath conf),
           GenEvent.toAddressesFile
             (env.GenerateMulti model conf.GenerateFirstNybble conf.GenerateAddressCount
               conf.GenerateUpdateFreq w1).1.1
             (env.getTimedFilePath (env.GetCandidateAddressDirPath conf)
               (env.GenerateMulti model conf.GenerateFirstNybble conf.GenerateAddressCount
                 conf.GenerateUpdateFreq w1).2)
             conf.GenWriteUpdateFreq],
        model :=
          some (env.GenerateMulti model conf.GenerateFirstNybble conf.GenerateAddressCount
            conf.GenerateUpdateFreq w1).1.2 } := by
  simp [generateCandidateAddresses, h]

/-- C4 (as stated, refuted): with a model whose `GenerateMulti` returns `::1`
twice, the sequence handed to `ToAddressesFile`, and the artifact written from
it, is `[::1, ::1]`: it has a duplicate and is not the deduplicated sequence. -/
theorem generateCandidateAddresses_keeps_duplicates :
    writtenAddresses
        (generateCandidateAddresses (listEnv [loopback, loopback] specToAddressesFile)
          sampleConf []).trace = [[loopback, loopback]] ∧
      (generateCandidateAddresses (listEnv [loopback, loopback] specToAddressesFile)
          sampleConf []).world.read "out/candidates/0" = some [loopback, loopback] ∧
      ¬ (∀ l ∈ writtenAddresses
          (generateCandidateAddresses (listEnv [loopback, loopback] specToAddressesFile)
            sampleConf []).trace, l.Nodup) ∧
      [loopback, loopback] ≠ [loopback, loopback].dedup := by
  decide

/-- C4 (amended): whenever the model loads, the one address sequence that
`generateCandidateAddresses` hands to `ToAddressesFile` is exactly the sequence
returned by `GenerateMulti`, in the same order and with nothing removed, and
the world it leaves is the one `ToAddressesFile` produced from that sequence. -/
theorem generateCandidateAddresses_writes_generated {σ ε M : Type} (env : GenEnv σ ε M)
    (conf : Configuration) (w : σ) (model : M) (w1 : σ)
    (h : env.GetProbabilisticAddressModel (conf.GetGeneratedModelDirPath env.Join) w =
      ((model, none), w1)) :
    writtenAddresses (generateCandidateAddresses env conf w).trace =
        [(env.GenerateMulti model conf.GenerateFirstNybble conf.GenerateAddressCount
          conf.GenerateUpdateFreq w1).1.1.Addresses] ∧
      (generateCandidateAddresses env conf w).world =
        (env.ToAddressesFile
          (env.GenerateMulti model conf.GenerateFirstNybble conf.GenerateAddressCount
            conf.GenerateUpdateFreq w1).1.1
          (env.getTimedFilePath (env.GetCandidateAddressDirPath conf)
            (env.GenerateMulti model conf.GenerateFirstNybble conf.GenerateAddressCount
              conf.GenerateUpdateFreq w1).2)
          conf.GenWriteUpdateFreq
          (env.GenerateMulti model conf.GenerateFirstNybble conf.GenerateAddressCount
            conf.GenerateUpdateFreq w1).2).2 := by
  rw [generate_load_succeeds env conf w h]
  exact ⟨rfl, rfl⟩

theorem generateCandidateAddresses_writes_generated_witness :
    (listEnv [loopback, unspecified, loopback] specToAddressesFile).GetProbabilisticAddressModel
        (sampleConf.GetGeneratedModelDirPath
          (listEnv [loopback, unspecified, loopback] specToAddressesFile).Join) [] =
        (([loopback, unspecified, loopback], none), []) ∧
      writtenAddresses
        (generateCandidateAddresses (listEnv [loopback, unspecified, loopback] specToAddressesFile)
          sampleConf []).trace = [[loopback, unspecified, loopback]] ∧
      (generateCandidateAddresses (listEnv [loopback, unspecified, loopback] specToAddressesFile)
          sampleConf []).world = [("out/candidates/0", [loopback, unspecified, loopback])] :=
  ⟨rfl,
    generateCandidateAddresses_writes_generated
      (listEnv [loopback, unspecified, loopback] specToAddressesFile) sampleConf []
      [loopback, unspecified, loopback] [] rfl⟩

/-- C5 (the code at the failing input): `ToAddressesFile` reports an error and
writes nothing, yet `generateCandidateAddresses` returns `nil`. -/
theorem generateCandidateAddresses_drops_write_error :
    (failingToAddressesFile { Addresses := [loopback] } "out/candidates/0"
        sampleConf.GenWriteUpdateFreq []).1 = some "open: permission denied" ∧
      GenEvent.toAddressesFile { Addresses := [loopback] } "out/candidates/0"
          sampleConf.GenWriteUpdateFreq ∈
        (generateCandidateAddresses (listEnv [loopback] failingToAddressesFile)
          sampleConf []).trace ∧
      (generateCandidateAddresses (listEnv [loopback] failingToAddressesFile)
          sampleConf []).world.read "out/candidates/0" = none ∧
      (generateCandidateAddresses (listEnv [loopback] failingToAddressesFile)
          sampleConf []).err = none := by
  decide

/-- C6: if loading the model fails, `generateCandidateAddresses` returns that
error, and the only collaborator called is the loader: `GenerateMulti` is not
called and nothing is handed to `ToAddressesFile`.  If loading succeeds,
`GenerateMulti` is called exactly once, on the loaded model with
`GenerateFirstNybble`, `GenerateAddressCount` and `GenerateUpdateFreq`, and the
model object the stage holds on return is the one `GenerateMulti` left: the
stage itself changes nothing in it, so a read-only `GenerateMulti` leaves the
loaded model as it was. -/
theorem generateCandidateAddresses_model {σ ε M : Type} (env : GenEnv σ ε M)
    (conf : Configuration) (w : σ) :
    (∀ v e w1,
        env.GetProbabilisticAddressModel (conf.GetGeneratedModelDirPath env.Join) w =
          ((v, some e), w1) →
        (generateCandidateAddresses env conf w).err = some e ∧
        (generateCandidateAddresses env conf w).world = w1 ∧
        (generateCandidateAddresses env conf w).trace =
          [GenEvent.getProbabilisticAddressModel (conf.GetGeneratedModelDirPath env.Join)] ∧
        (generateCandidateAddresses env conf w).trace.countP GenEvent.isGenerateMulti = 0 ∧
        writtenAddresses (generateCandidateAddresses env conf w).trace = []) ∧
    (∀ model w1,
        env.GetProbabilisticAddressModel (conf.GetGeneratedModelDirPath env.Join) w =
          ((model, none), w1) →
        (generateCandidateAddresses env conf w).trace.countP GenEvent.isGenerateMulti = 1 ∧
        (generateCandidateAddresses env conf w).trace.filter GenEvent.isGenerateMulti =
          [GenEvent.generateMulti model conf.GenerateFirstNybble conf.GenerateAddressCount
            conf.GenerateUpdateFreq] ∧
        (generateCandidateAddresses env conf w).model =
          some (env.GenerateMulti model conf.GenerateFirstNybble conf.GenerateAddressCount
            conf.GenerateUpdateFreq w1).1.2 ∧
        ((env.GenerateMulti model conf.GenerateFirstNybble conf.GenerateAddressCount
            conf.GenerateUpdateFreq w1).1.2 = model →
          (generateCandidateAddresses env conf w).model = some model)) := by
  constructor
  · intro v e w1 h
    rw [generate_load_fails env conf w h]
    simp [GenEvent.isGenerateMulti, writtenAddresses]
  · intro model w1 h
    rw [generate_load_succeeds env conf w h]
    refine ⟨by simp [GenEvent.isGenerateMulti], by simp [GenEvent.isGenerateMulti], rfl, ?_⟩
    intro hm
    simp [hm]

theorem generateCandidateAddresses_model_witness :
    ((generateCandidateAddresses noModelEnv sampleConf []).err = some "no model" ∧
        (generateCandidateAddresses noModelEnv sampleConf []).world = [] ∧
        (generateCandidateAddresses noModelEnv sampleConf []).trace =
          [GenEvent.getProbabilisticAddressModel "out/model"] ∧
        (generateCandidateAddresses noModelEnv sampleConf []).trace.countP
          GenEvent.isGenerateMulti = 0 ∧
        writtenAddresses (generateCandidateAddresses noModelEnv sampleConf []).trace = []) ∧
      (generateCandidateAddresses (listEnv [loopback] specToAddressesFile)
        sampleConf []).model = some [loopback] :=
  ⟨(generateCandidateAddresses_model noModelEnv sampleConf []).1 [] "no model" [] rfl,
    ((generateCandidateAddresses_model (listEnv [loopback] specToAddressesFile)
      sampleConf []).2 [loopback] [] rfl).2.2.2 rfl⟩

/-! ### The blacklist decision of the disabled `zmapScanNetworkRanges` -/

theorem found_eq_true_iff (netAddr : IPv6Address) (addrs : List IPv6Address) :
    found netAddr addrs = true ↔ ∃ addr ∈ addrs, netAddr.Content = addr.Content := by
  induction addrs with
  | nil => simp [found]
  | cons a rest ih =>
    by_cases h : netAddr.Content = a.Content
    · simp [found, h]
    · simp [found, h, ih]

theorem addrMiss_eq_false_iff (addrs : IPv6AddressList) (netRange : List IPv6Address) :
    addrMiss addrs netRange = false ↔
      ∀ netAddr ∈ netRange, ∃ addr ∈ addrs.Addresses, netAddr.Content = addr.Content := by
  induction netRange with
  | nil => simp [addrMiss]
  | cons a rest ih =>
    by_cases h : found a addrs.Addresses = true
    · have h2 := (found_eq_true_iff a addrs.Addresses).mp h
      rw [List.forall_mem_cons, ← ih]
      simp [addrMiss, h, h2]
    · have h2 : ¬ ∃ addr ∈ addrs.Addresses, a.Content = addr.Content :=
        fun hx => h ((found_eq_true_iff a addrs.Addresses).mpr hx)
      have h3 : found a addrs.Addresses = false := by simpa using h
      rw [List.forall_mem_cons]
      simp [addrMiss, h3, h2]

theorem addrMiss_eq_true_iff (addrs : IPv6AddressList) (netRange : List IPv6Address) :
    addrMiss addrs netRange = true ↔
      ∃ netAddr ∈ netRange, ∀ addr ∈ addrs.Addresses, netAddr.Content ≠ addr.Content := by
  have h := addrMiss_eq_false_iff addrs netRange
  constructor
  · intro ht
    by_contra hne
    have : addrMiss addrs netRange = false := h.mpr (by
      intro netAddr hmem
      by_contra hno
      exact hne ⟨netAddr, hmem, fun addr ha hc => hno ⟨addr, ha, hc⟩⟩)
    rw [ht] at this
    exact Bool.noConfusion this
  · rintro ⟨netAddr, hmem, hall⟩
    by_contra hf
    have hf : addrMiss addrs netRange = false := by simpa using hf
    obtain ⟨addr, ha, hc⟩ := h.mp hf netAddr hmem
    exact hall addr ha hc

theorem blacklistLoop_file (toStr : IPv6Address → String) (nets addrs : IPv6AddressList)
    (rs : List (List IPv6Address)) :
    ∀ (pos : Nat) (file : List String),
      blacklistLoop toStr nets addrs rs pos file =
        (blacklistLoop toStr nets addrs rs pos []).map (fun g => file ++ g) := by
  induction rs with
  | nil => intro pos file; simp [blacklistLoop]
  | cons r rest ih =>
    intro pos file
    unfold blacklistLoop
    split
    · split
      · rename_i net _
        rw [ih (pos + 1) (file ++ [toStr net ++ "\n"]),
          ih (pos + 1) ([] ++ [toStr net ++ "\n"])]
        cases blacklistLoop toStr nets addrs rest (pos + 1) [] <;> simp
      · rfl
    · exact ih (pos + 1) file

theorem blacklistLoop_append (toStr : IPv6Address → String) (nets addrs : IPv6AddressList)
    (xs ys : List (List IPv6Address)) :
    ∀ (pos : Nat) (file : List String),
      blacklistLoop toStr nets addrs (xs ++ ys) pos file =
        (blacklistLoop toStr nets addrs xs pos file).bind
          (fun f => blacklistLoop toStr nets addrs ys (pos + xs.length) f) := by
  induction xs with
  | nil => intro pos file; simp [blacklistLoop]
  | cons r rest ih =>
    intro pos file
    have hidx : pos + (rest.length + 1) = pos + 1 + rest.length := by omega
    simp only [List.cons_append, blacklistLoop, List.length_cons, hidx]
    split
    · split
      · exact ih _ _
      · rfl
    · exact ih _ _

theorem blacklistLoop_total (toStr : IPv6Address → String) (nets addrs : IPv6AddressList)
    (rs : List (List IPv6Address)) :
    ∀ (pos : Nat) (file : List String), pos + rs.length ≤ nets.Addresses.length →
      ∃ f, blacklistLoop toStr nets addrs rs pos file = some f := by
  induction rs with
  | nil => intro pos file _; exact ⟨file, rfl⟩
  | cons r rest ih =>
    intro pos file hlen
    simp only [List.length_cons] at hlen
    have hpos : pos < nets.Addresses.length := by omega
    unfold blacklistLoop
    split
    · rw [List.getElem?_eq_getElem hpos]
      exact ih (pos + 1) _ (by omega)
    · exact ih (pos + 1) _ (by omega)

theorem blacklistLoop_lines (toStr : IPv6Address → String) (nets addrs : IPv6AddressList)
    (rs : List (List IPv6Address)) :
    ∀ (pos : Nat) (f : List String), blacklistLoop toStr nets addrs rs pos [] = some f →
      ∀ l ∈ f, ∃ j net, pos ≤ j ∧ j < pos + rs.length ∧ nets.Addresses[j]? = some net ∧
        l = toStr net ++ "\n" := by
  induction rs with
  | nil =>
    intro pos f h l hl
    simp only [blacklistLoop, Option.some.injEq] at h
    subst h
    cases hl
  | cons r rest ih =>
    intro pos f h l hl
    unfold blacklistLoop at h
    split at h
    · split at h
      · rename_i net hnet
        rw [blacklistLoop_file] at h
        rcases hrest : blacklistLoop toStr nets addrs rest (pos + 1) [] with _ | g
        · rw [hrest] at h; cases h
        · rw [hrest] at h
          simp only [List.nil_append, Option.map_some', Option.some.injEq] at h
          subst h
          rcases List.mem_append.mp hl with hl | hl
          · simp only [List.mem_singleton] at hl
            exact ⟨pos, net, le_refl _, by simp, hnet, hl⟩
          · obtain ⟨j, n, h1, h2, h3, h4⟩ := ih (pos + 1) g hrest l hl
            exact ⟨j, n, by omega, by simp only [List.length_cons]; omega, h3, h4⟩
      · cases h
    · obtain ⟨j, n, h1, h2, h3, h4⟩ := ih (pos + 1) f h l hl
      exact ⟨j, n, by omega, by simp only [List.length_cons]; omega, h3, h4⟩

theorem line_injective (toStr : IPv6Address → String) (hinj : Function.Injective toStr)
    {a b : IPv6Address} (h : toStr a ++ "\n" = toStr b ++ "\n") : a = b := by
  apply hinj
  have h2 := congrArg String.data h
  simp only [String.data_append] at h2
  exact String.ext (List.append_cancel_right h2)

/-- C1: in the blacklist loop of the disabled `zmapScanNetworkRanges`, with one
probe batch per network (`netRanges` as long as `nets.Addresses`), the blacklist
file is: what the iterations before `pos` wrote, then the line of
`nets.Addresses[pos]` exactly once if every address of `netRanges[pos]` has the
same `Content` as some responder, and nothing at all if at least one address of
the batch has no such responder (however many responders there are), then what
the iterations after `pos` wrote.  When the networks are pairwise distinct and
`String()` is injective, no other iteration writes that line, so it occurs in
the file once, respectively not at all. -/
theorem blacklistLoop_writes_once (toStr : IPv6Address → String)
    (nets addrs : IPv6AddressList) (netRanges : List (List IPv6Address))
    (hlen : netRanges.length = nets.Addresses.length) (pos : Nat)
    (hpos : pos < netRanges.length) :
    ∃ before after net,
      nets.Addresses[pos]? = some net ∧
      blacklistLoop toStr nets addrs (netRanges.take pos) 0 [] = some before ∧
      blacklistLoop toStr nets addrs (netRanges.drop (pos + 1)) (pos + 1) [] = some after ∧
      ((∀ netAddr ∈ netRanges[pos], ∃ addr ∈ addrs.Addresses, netAddr.Content = addr.Content) →
        blacklistLoop toStr nets addrs netRanges 0 [] =
          some (before ++ [toStr net ++ "\n"] ++ after)) ∧
      ((∃ netAddr ∈ netRanges[pos], ∀ addr ∈ addrs.Addresses, netAddr.Content ≠ addr.Content) →
        blacklistLoop toStr nets addrs netRanges 0 [] = some (before ++ after)) ∧
      (nets.Addresses.Nodup → Function.Injective toStr →
        toStr net ++ "\n" ∉ before ∧ toStr net ++ "\n" ∉ after ∧
        ((∀ netAddr ∈ netRanges[pos],
            ∃ addr ∈ addrs.Addresses, netAddr.Content = addr.Content) →
          (before ++ [toStr net ++ "\n"] ++ after).count (toStr net ++ "\n") = 1) ∧
        ((∃ netAddr ∈ netRanges[pos],
            ∀ addr ∈ addrs.Addresses, netAddr.Content ≠ addr.Content) →
          (before ++ after).count (toStr net ++ "\n") = 0)) := by
  have hposn : pos < nets.Addresses.length := hlen ▸ hpos
  have htake : (netRanges.take pos).length = pos := by
    rw [List.length_take]; omega
  obtain ⟨before, hbefore⟩ := blacklistLoop_total toStr nets addrs (netRanges.take pos) 0 []
    (by rw [htake]; omega)
  obtain ⟨after, hafter⟩ := blacklistLoop_total toStr nets addrs (netRanges.drop (pos + 1))
    (pos + 1) [] (by rw [List.length_drop]; omega)
  have hnet : nets.Addresses[pos]? = some (nets.Addresses[pos]) :=
    List.getElem?_eq_getElem hposn
  have hsplit : netRanges = netRanges.take pos ++ ([netRanges[pos]] ++ netRanges.drop (pos + 1)) := by
    rw [List.singleton_append, ← List.drop_eq_getElem_cons hpos, List.take_append_drop]
  have hrun : ∀ mid : List String,
      blacklistLoop toStr nets addrs [netRanges[pos]] pos before = some (before ++ mid) →
      blacklistLoop toStr nets addrs netRanges 0 [] = some (before ++ mid ++ after) := by
    intro mid hmid
    conv_lhs => rw [hsplit]
    rw [blacklistLoop_append, hbefore, Option.some_bind, htake, Nat.zero_add,
      blacklistLoop_append, hmid, Option.some_bind, blacklistLoop_file, List.length_singleton,
      hafter]
    simp
  refine ⟨before, after, nets.Addresses[pos], hnet, hbefore, hafter, ?_, ?_, ?_⟩
  · intro hall
    have hm := (addrMiss_eq_false_iff addrs netRanges[pos]).mpr hall
    exact hrun [toStr nets.Addresses[pos] ++ "\n"] (by simp [blacklistLoop, hm, hnet])
  · intro hex
    have hm := (addrMiss_eq_true_iff addrs netRanges[pos]).mpr hex
    have := hrun [] (by simp [blacklistLoop, hm])
    simpa using this
  · intro hnodup hinj
    have hb : toStr nets.Addresses[pos] ++ "\n" ∉ before := by
      intro hmem
      obtain ⟨j, n, -, hj, hn, hl⟩ := blacklistLoop_lines toStr nets addrs _ 0 before hbefore _ hmem
      rw [htake] at hj
      have hjn : j < nets.Addresses.length := by omega
      rw [List.getElem?_eq_getElem hjn, Option.some.injEq] at hn
      have heq : nets.Addresses[pos] = nets.Addresses[j] := by
        rw [hn]; exact line_injective toStr hinj hl
      have := (List.Nodup.getElem_inj_iff hnodup).mp heq
      omega
    have ha : toStr nets.Addresses[pos] ++ "\n" ∉ after := by
      intro hmem
      obtain ⟨j, n, hj1, hj, hn, hl⟩ :=
        blacklistLoop_lines toStr nets addrs _ (pos + 1) after hafter _ hmem
      have hjn : j < nets.Addresses.length := by
        by_contra hnot
        rw [List.getElem?_eq_none (by omega)] at hn
        cases hn
      rw [List.getElem?_eq_getElem hjn, Option.some.injEq] at hn
      have heq : nets.Addresses[pos] = nets.Addresses[j] := by
        rw [hn]; exact line_injective toStr hinj hl
      have := (List.Nodup.getElem_inj_iff hnodup).mp heq
      omega
    refine ⟨hb, ha, fun _ => ?_, fun _ => ?_⟩
    · simp [List.count_append, List.count_eq_zero.mpr hb, List.count_eq_zero.mpr ha]
    · simp [List.count_append, List.count_eq_zero.mpr hb, List.count_eq_zero.mpr ha]

theorem blacklistLoop_writes_once_witness :
    [[unspecified], [loopback]].length = [loopback, unspecified].length ∧
      1 < [[unspecified], [loopback]].length ∧
      ∃ before after,
        blacklistLoop label { Addresses := [loopback, unspecified] }
          { Addresses := [unspecified] } ([[unspecified], [loopback]].take 1) 0 [] =
          some before ∧
        blacklistLoop label { Addresses := [loopback, unspecified] }
          { Addresses := [unspecified] } ([[unspecified], [loopback]].drop (1 + 1)) (1 + 1) [] =
          some after ∧
        blacklistLoop label { Addresses := [loopback, unspecified] }
          { Addresses := [unspecified] } [[unspecified], [loopback]] 0 [] =
          some (before ++ after) := by
  obtain ⟨before, after, net, -, hb, ha, -, hex, -⟩ :=
    blacklistLoop_writes_once label { Addresses := [loopback, unspecified] }
      { Addresses := [unspecified] } [[unspecified], [loopback]] rfl 1 (by decide)
  exact ⟨rfl, by decide, before, after, hb, ha, hex ⟨loopback, by simp, by decide⟩⟩

/-! ### Probe-address generation of the disabled `zmapScanNetworkRanges` -/

/-- C9 (the code at a failing input): with `NetworkGroupingSize = 4`,
`NetworkPingCount = 1`, the network `::` and every random draw equal to 1, the
one generated address is `f0ff:ffff:...:ffff`: its leading four bits are `1111`
while those of the network are `0000`, so it lies outside the network. -/
theorem generateNetRanges_leaves_network :
    sampleConf.NetworkGroupingSize = 4 ∧ sampleConf.NetworkPingCount = 1 ∧
      generateNetRanges (fun _ => 1) label sampleConf [unspecified] 0 [] [] =
        some ([[{ Content :=
            [240, 255, 255, 255, 255, 255, 255, 255, 255, 255, 255, 255, 255, 255, 255, 255] }]],
          ["f0ffffffffffffffffffffffffffffff\n"], 124) ∧
      withinNetwork 4 unspecified
        { Content :=
            [240, 255, 255, 255, 255, 255, 255, 255, 255, 255, 255, 255, 255, 255, 255, 255] } =
        false ∧
      (List.range 4).map (IPv6Address.bit
        { Content :=
            [240, 255, 255, 255, 255, 255, 255, 255, 255, 255, 255, 255, 255, 255, 255, 255] }) =
        [1, 1, 1, 1] ∧
      (List.range 4).map (IPv6Address.bit unspecified) = [0, 0, 0, 0] := by
  decide

theorem randomHostBits_bytes (rnd : RandSource) (n : Nat) :
    ∀ (x k : Nat) (content : List Nat), x + n = 128 →
      ∃ content', randomHostBits rnd n (x : Int) k content = some (content', k + n) ∧
        content'.length = content.length ∧
        ∀ i, i < x / 8 → content'.getD i 0 = content.getD i 0 := by
  induction n with
  | zero => intro x k content _; exact ⟨content, rfl, rfl, fun _ _ => rfl⟩
  | succ n ih =>
    intro x k content hx
    have hdiv : Int.tdiv (x : Int) 8 = ((x / 8 : Nat) : Int) := by
      rw [Int.tdiv_eq_ediv (by omega) (by omega)]; norm_cast
    have hlo : (0 : Int) ≤ ((x / 8 : Nat) : Int) := by omega
    have hhi : ((x / 8 : Nat) : Int) < 16 := by omega
    obtain ⟨content', hrun, hlen, hsame⟩ := ih (x + 1) (k + 1)
      (content.set (x / 8) (content.getD (x / 8) 0 |||
        notByte (toByte (notInt (shlInt (Int.ofNat (rnd k % 2))
          (toUint ((x : Int) - ((x / 8 : Nat) : Int) * 8))))))) (by omega)
    refine ⟨content', ?_, ?_, ?_⟩
    · simp only [randomHostBits, hdiv, hlo, hhi, and_self, if_true, Int.toNat_ofNat]
      rw [show ((x : Int) + 1) = ((x + 1 : Nat) : Int) by norm_cast, hrun]
      congr 2
      omega
    · rw [hlen, List.length_set]
    · intro i hi
      rw [hsame i (by omega)]
      simp only [List.getD_eq_getElem?_getD]
      rw [List.getElem?_set_ne (by omega)]

theorem withinNetwork_of_bytes (length : Nat) (net a : IPv6Address) (h8 : length % 8 = 0)
    (hsame : ∀ i, i < length / 8 → a.Content.getD i 0 = net.Content.getD i 0) :
    withinNetwork length net a = true := by
  simp only [withinNetwork, List.all_eq_true, List.mem_range, beq_iff_eq]
  intro i hi
  simp only [IPv6Address.bit]
  rw [hsame (i / 8) (by omega)]

theorem probeBatch_bytes (rnd : RandSource) (toStr : IPv6Address → String)
    (conf : Configuration) (net : IPv6Address) (size : Nat)
    (hsize : conf.NetworkGroupingSize = (size : Int)) (h128 : size ≤ 128) (n : Nat) :
    ∀ (k : Nat) (netRange : List IPv6Address) (file : List String),
      ∃ batch file1 k1,
        probeBatch rnd toStr conf net n k netRange file = some (netRange ++ batch, file1, k1) ∧
        batch.length = n ∧
        ∀ a ∈ batch, ∀ i, i < size / 8 → a.Content.getD i 0 = net.Content.getD i 0 := by
  induction n with
  | zero => intro k netRange file; exact ⟨[], file, k, by simp [probeBatch], rfl, by simp⟩
  | succ n ih =>
    intro k netRange file
    have hn : (128 - (size : Int)).toNat = 128 - size := by omega
    obtain ⟨content, hrun, -, hsame⟩ :=
      randomHostBits_bytes rnd (128 - size) size k net.Content (by omega)
    obtain ⟨batch, file1, k1, hrest, hlen, hall⟩ := ih (k + (128 - size))
      (netRange ++ [{ Content := content }])
      (file ++ [toStr { Content := content } ++ "\n"])
    refine ⟨{ Content := content } :: batch, file1, k1, ?_, by simp [hlen], ?_⟩
    · simp only [probeBatch, hsize, hn, hrun, hrest]
      simp
    · intro a ha
      rcases List.mem_cons.mp ha with rfl | ha
      · exact hsame
      · exact hall a ha

theorem generateNetRanges_bytes (rnd : RandSource) (toStr : IPv6Address → String)
    (conf : Configuration) (size : Nat) (hsize : conf.NetworkGroupingSize = (size : Int))
    (h128 : size ≤ 128) (nets : List IPv6Address) :
    ∀ (k : Nat) (netRanges : List (List IPv6Address)) (file : List String),
      ∃ batches file1 k1,
        generateNetRanges rnd toStr conf nets k netRanges file =
          some (netRanges ++ batches, file1, k1) ∧
        List.Forall₂
          (fun net batch => batch.length = conf.NetworkPingCount.toNat ∧
            ∀ a ∈ batch, ∀ i, i < size / 8 → a.Content.getD i 0 = net.Content.getD i 0)
          nets batches := by
  induction nets with
  | nil =>
    intro k netRanges file
    exact ⟨[], file, k, by simp [generateNetRanges], List.Forall₂.nil⟩
  | cons net rest ih =>
    intro k netRanges file
    obtain ⟨batch, file1, k1, hb, hlen, hall⟩ :=
      probeBatch_bytes rnd toStr conf net size hsize h128 conf.NetworkPingCount.toNat k [] file
    obtain ⟨batches, file2, k2, hrest, hfor⟩ := ih k1 (netRanges ++ [[] ++ batch]) file1
    refine ⟨batch :: batches, file2, k2, ?_, List.Forall₂.cons ⟨hlen, hall⟩ hfor⟩
    simp only [generateNetRanges, hb, hrest]
    simp

/-- What does hold of the generation loop (support for C9): for a grouping
size between 0 and 128 the loop never panics, it builds one batch per network
with `NetworkPingCount` addresses in it (none when the count is negative), and
when the grouping size is a multiple of 8 every generated address lies within
its network. -/
theorem generateNetRanges_byte_aligned (rnd : RandSource) (toStr : IPv6Address → String)
    (conf : Configuration) (size : Nat) (hsize : conf.NetworkGroupingSize = (size : Int))
    (h128 : size ≤ 128) (nets : List IPv6Address) :
    ∃ netRanges file k,
      generateNetRanges rnd toStr conf nets 0 [] [] = some (netRanges, file, k) ∧
      List.Forall₂
        (fun net batch => batch.length = conf.NetworkPingCount.toNat ∧
          (size % 8 = 0 → ∀ a ∈ batch, withinNetwork size net a = true))
        nets netRanges := by
  obtain ⟨batches, file, k, hrun, hfor⟩ :=
    generateNetRanges_bytes rnd toStr conf size hsize h128 nets 0 [] []
  refine ⟨batches, file, k, by simpa using hrun, ?_⟩
  refine List.Forall₂.imp ?_ hfor
  rintro net batch ⟨hlen, hall⟩
  exact ⟨hlen, fun h8 a ha => withinNetwork_of_bytes size net a h8 (hall a ha)⟩

/-! ### The theorems above at concrete inputs -/

/-- C8 (the code at a failing input): the state file is configured as `f/state`
and `out/f` is a regular file.  All six directories are created, `os.Stat` on
`out/f/state` fails with an error that is not an `IsNotExist` error, and no
state file exists; yet `initFilesystem` does not call `InitStateFile`: its last
call is the `Stat`, it returns `nil`, and there is still no state file. -/
theorem initFilesystem_skips_missing_state_file :
    nestedStateConf.GetStateFilePath (enotdirEnv nestedStateConf).Join = "out/f/state" ∧
      (createDirectories (enotdirEnv nestedStateConf)
        (nestedStateConf.GetAllDirectories (enotdirEnv nestedStateConf).Join)
        clutteredDisk []).err = none ∧
      (enotdirEnv nestedStateConf).Stat "out/f/state"
        (createDirectories (enotdirEnv nestedStateConf)
          (nestedStateConf.GetAllDirectories (enotdirEnv nestedStateConf).Join)
          clutteredDisk []).world = some "stat out/f/state: not a directory" ∧
      (enotdirEnv nestedStateConf).IsNotExist "stat out/f/state: not a directory" = false ∧
      "out/f/state" ∉
        (createDirectories (enotdirEnv nestedStateConf)
          (nestedStateConf.GetAllDirectories (enotdirEnv nestedStateConf).Join)
          clutteredDisk []).world.paths ∧
      (initFilesystem (enotdirEnv nestedStateConf) nestedStateConf clutteredDisk).trace =
        [Event.createDirectoryIfNotExist "out", Event.createDirectoryIfNotExist "out/model",
         Event.createDirectoryIfNotExist "out/ping",
         Event.createDirectoryIfNotExist "out/groups",
         Event.createDirectoryIfNotExist "out/blacklist",
         Event.createDirectoryIfNotExist "out/clean", Event.stat "out/f/state"] ∧
      (initFilesystem (enotdirEnv nestedStateConf) nestedStateConf clutteredDisk).err = none ∧
      "out/f/state" ∉
        (initFilesystem (enotdirEnv nestedStateConf) nestedStateConf clutteredDisk).world.paths := by
  decide

theorem initFilesystem_state_file_witness :
    ((initFilesystem (diskEnv sampleConf []) sampleConf freshDisk).trace =
        (createDirectories (diskEnv sampleConf [])
          (sampleConf.GetAllDirectories (diskEnv sampleConf []).Join) freshDisk []).trace ++
          [Event.stat "out/state", Event.initStateFile "out/state"] ∧
        (initFilesystem (diskEnv sampleConf []) sampleConf freshDisk).err = none) ∧
      ((initFilesystem (diskEnv sampleConf []) sampleConf usedDisk).err = none ∧
        (initFilesystem (diskEnv sampleConf []) sampleConf usedDisk).world =
          (createDirectories (diskEnv sampleConf [])
            (sampleConf.GetAllDirectories (diskEnv sampleConf []).Join) usedDisk []).world ∧
        (initFilesystem (diskEnv sampleConf []) sampleConf usedDisk).trace =
          (createDirectories (diskEnv sampleConf [])
            (sampleConf.GetAllDirectories (diskEnv sampleConf []).Join) usedDisk []).trace ++
            [Event.stat "out/state"]) ∧
      ((initFilesystem (diskEnv sampleConf ["out/ping"]) sampleConf freshDisk).err =
          some "mkdir: permission denied" ∧
        (initFilesystem (diskEnv sampleConf ["out/ping"]) sampleConf freshDisk).world =
          { paths := ["out/model", "out"], zmap := true } ∧
        (initFilesystem (diskEnv sampleConf ["out/ping"]) sampleConf freshDisk).trace =
          [Event.createDirectoryIfNotExist "out", Event.createDirectoryIfNotExist "out/model",
           Event.createDirectoryIfNotExist "out/ping"]) :=
  ⟨(initFilesystem_state_file (diskEnv sampleConf []) sampleConf freshDisk).2.1
      (by decide) (by decide),
    (initFilesystem_state_file (diskEnv sampleConf []) sampleConf usedDisk).2.2.1
      (by decide) (by decide),
    (initFilesystem_state_file (diskEnv sampleConf ["out/ping"]) sampleConf freshDisk).2.2.2.1
      "mkdir: permission denied" (by decide)⟩

theorem main_enters_state_machine_iff_witness :
    Event.runStateMachine ∈ (main (diskEnv sampleConf []) freshDisk).trace ∧
      (main (diskEnv sampleConf []) usedDisk).outcome.isFatal = true :=
  ⟨(main_enters_state_machine_iff (diskEnv sampleConf []) freshDisk).1.mpr
      ⟨sampleConf, freshDisk,
        (initFilesystem (diskEnv sampleConf []) sampleConf freshDisk).world,
        by decide, by decide, by decide⟩,
    (main_enters_state_machine_iff (diskEnv sampleConf []) usedDisk).2.1 (by decide)⟩

theorem zmapScanNetworkRanges_first_error_witness :
    (zmapScanNetworkRanges (lineEnv "out/targets/7" false 0) sampleConf
        { blCandidateCounter := 10, blCandidateResponseCounter := 20 }
        [("out/targets/7", 3)]).err = some "exit status 1" ∧
      (zmapScanNetworkRanges (lineEnv "out/targets/7" false 0) sampleConf
        { blCandidateCounter := 10, blCandidateResponseCounter := 20 }
        [("out/targets/7", 3)]).world = [("out/targets/7", 3)] ∧
      (zmapScanNetworkRanges (lineEnv "out/targets/7" false 0) sampleConf
        { blCandidateCounter := 10, blCandidateResponseCounter := 20 }
        [("out/targets/7", 3)]).trace =
        [ScanEvent.getMostRecentFilePathFromDir "out/targets",
         ScanEvent.countLinesInFile "out/targets/7",
         ScanEvent.getTimedFilePath "out/results",
         ScanEvent.zmapScanFromConfig "out/targets/7" "out/results/0"] :=
  (zmapScanNetworkRanges_first_error (lineEnv "out/targets/7" false 0) sampleConf
    { blCandidateCounter := 10, blCandidateResponseCounter := 20 }
    [("out/targets/7", 3)]).2.2.2.1
    "out/targets/7" [("out/targets/7", 3)] 3 [("out/targets/7", 3)] "" "exit status 1"
    [("out/targets/7", 3)] (by decide) (by decide) (by decide)

theorem zmapScanNetworkRanges_counters_witness :
    ((zmapScanNetworkRanges (lineEnv "out/targets/7" false 0) sampleConf
          { blCandidateCounter := 10, blCandidateResponseCounter := 20 }
          [("out/targets/7", 3)]).counters.blCandidateResponseCounter = 20 ∧
        ∀ i, CounterCall.blCandidateResponseCounterInc i ∉
          (zmapScanNetworkRanges (lineEnv "out/targets/7" false 0) sampleConf
            { blCandidateCounter := 10, blCandidateResponseCounter := 20 }
            [("out/targets/7", 3)]).incs) ∧
      (zmapScanNetworkRanges (lineEnv "out/targets/7" true 2) sampleConf
        { blCandidateCounter := 10, blCandidateResponseCounter := 20 }
        [("out/targets/7", 3)]).counters.blCandidateCounter = 13 ∧
      (zmapScanNetworkRanges (lineEnv "out/targets/7" true 2) sampleConf
        { blCandidateCounter := 10, blCandidateResponseCounter := 20 }
        [("out/targets/7", 3)]).counters.blCandidateResponseCounter = 22 := by
  refine ⟨(zmapScanNetworkRanges_counters (lineEnv "out/targets/7" false 0) sampleConf
    { blCandidateCounter := 10, blCandidateResponseCounter := 20 }
    [("out/targets/7", 3)]).2 (by decide), ?_⟩
  obtain ⟨addrsPath, w1, addrsCount, w2, out, w3, resultsCount, w4, h1, h2, h3, h4, -, -, -,
      hc, hr⟩ :=
    (zmapScanNetworkRanges_counters (lineEnv "out/targets/7" true 2) sampleConf
      { blCandidateCounter := 10, blCandidateResponseCounter := 20 }
      [("out/targets/7", 3)]).1 (by decide)
  cases h1
  cases h2
  cases h3
  cases h4
  exact ⟨hc (by decide), hr (by decide)⟩

/-- The counters are `int64`: at the top of the range `Inc(1)` wraps the count
to `-2^63`, as `atomic.AddInt64` does. -/
theorem zmapScanNetworkRanges_counter_wraps :
    (zmapScanNetworkRanges (lineEnv "out/targets/7" true 0) sampleConf
        { blCandidateCounter := 9223372036854775807, blCandidateResponseCounter := 0 }
        [("out/targets/7", 1)]).err = none ∧
      (zmapScanNetworkRanges (lineEnv "out/targets/7" true 0) sampleConf
        { blCandidateCounter := 9223372036854775807, blCandidateResponseCounter := 0 }
        [("out/targets/7", 1)]).incs =
        [CounterCall.blCandidateCounterInc 1, CounterCall.blCandidateResponseCounterInc 0] ∧
      (zmapScanNetworkRanges (lineEnv "out/targets/7" true 0) sampleConf
        { blCandidateCounter := 9223372036854775807, blCandidateResponseCounter := 0 }
        [("out/targets/7", 1)]).counters.blCandidateCounter = -9223372036854775808 := by
  decide

end Ipv666
